import Mathlib

/-! GKE consumption exporter: usage attribution pipeline

A shallow embedding of the metrics tracker of `gke-consumption`
(`tracker/tracker.go`, `util/monitoring.go`, `util/k8s.go`,
`types/*.go`, `config/config.go`) together with theorems about it.

Modelling conventions

* `float64` quantities computed from samples are exact rationals (`ℚ`);
  rounding is not modelled.  The one float operation whose IEEE special
  cases matter, the division by a node capacity, yields an `F64`.
* `time.Time` is the number of nanoseconds since the Unix epoch (`Int`);
  `Time.Sub` is the exact difference and `Duration.Seconds` the exact
  quotient by `10^9`.
* A Go runtime panic is an `Except.error` of type `Panic`; a Go `error`
  return value is an `Except.error` of type `GoError`.
* Go maps are association lists with unique keys (`GoMap`).
* Calls to collaborators (cluster manager, Kubernetes API) are answered by
  a `World` of functions; logging is not modelled.
-/

namespace Consumption

/-! ## Runtime outcomes -/

/-- A Go runtime panic. -/
inductive Panic where
  | indexOutOfRange (index : Nat) (length : Nat)
  deriving DecidableEq, Repr

/-- Go `error` values produced or forwarded by the program. -/
inductive GoError where
  /-- An error reported by a collaborator (API call, iterator, auth). -/
  | external (code : Nat)
  /-- The error `fmt.Errorf("error parsing label values: %v", labels)`. -/
  | parseLabelValues (count : Nat)
  /-- The error `fmt.Errorf("could not query time series value: %w", err)`. -/
  | queryTimeSeries (cause : GoError)
  /-- The error `fmt.Errorf("failed to create kube client: %v", err)`. -/
  | createKubeClient (cause : GoError)
  /-- The error `fmt.Errorf("error getting pod %s/%s: %v", namespace, name, err)`. -/
  | getPod (ns name : String) (cause : GoError)
  /-- The error `fmt.Errorf("error getting node %s: %v", name, err)`. -/
  | getNode (name : String) (cause : GoError)
  /-- The error `fmt.Errorf("error converting node %s: %v", name, err)`. -/
  | convertNode (name : String) (cause : GoError)
  /-- The error `fmt.Errorf("unable to check if node is preemptible: %v", err)`. -/
  | checkPreemptible (cause : GoError)
  /-- The error `fmt.Errorf("invalid value for label %s: %s", gkePreemptibleLabel, val)`. -/
  | invalidLabelValue (val : String)
  /-- An error of `time.ParseDuration`. -/
  | invalidDuration (s : String)
  /-- The error `fmt.Errorf("error getting bigquery table: %v", err)`. -/
  | getTable (cause : GoError)
  /-- The error `fmt.Errorf("error in writting bigquery table: %v", err)`. -/
  | writeTable (cause : GoError)
  /-- The error `fmt.Errorf("failed to create table %q in dataset %q: %v", ...)`. -/
  | createTable (cause : GoError)
  /-- The error `fmt.Errorf("failed to get the metadata for table %q in dataset %q: %v", ...)`. -/
  | getTableMetadata (cause : GoError)
  /-- The error `fmt.Errorf("cannot infer the BigQuery Schema for UsageRecord: %v", err)`. -/
  | inferSchema (cause : GoError)
  deriving DecidableEq, Repr

/-- Slice indexing `s[i]`, which panics when `i` is out of range. -/
def index {α : Type} (s : List α) (i : Nat) : Except Panic α :=
  match s[i]? with
  | some a => .ok a
  | none => .error (.indexOutOfRange i s.length)

/-! ## Time -/

/-- An instant (`time.Time`), in nanoseconds since the Unix epoch. -/
abbrev Time := Int

/-- A `time.Duration`, in nanoseconds. -/
abbrev Duration := Int

/-- The method `Time.Sub`. -/
def Time.Sub (t u : Time) : Duration := t - u

/-- The method `Time.Add`. -/
def Time.Add (t : Time) (d : Duration) : Time := t + d

/-- The method `Duration.Seconds`, in exact arithmetic. -/
def Duration.Seconds (d : Duration) : ℚ := (d : ℚ) / 1000000000

/-! ## Monitoring messages (`monitoringpb`) -/

/-- The message `monitoringpb.LabelValue`: a oneof of three kinds, possibly unset. -/
inductive LabelValue where
  | boolValue (b : Bool)
  | int64Value (i : Int)
  | stringValue (s : String)
  | unset
  deriving DecidableEq, Repr

/-- The getter `LabelValue.GetStringValue`: the empty string unless the value is a string. -/
def LabelValue.GetStringValue : LabelValue → String
  | .stringValue s => s
  | _ => ""

/-- The message `monitoringpb.TypedValue`. -/
inductive TypedValue where
  | boolValue (b : Bool)
  | int64Value (i : Int)
  | doubleValue (v : ℚ)
  | stringValue (s : String)
  | unset
  deriving DecidableEq, Repr

/-- The getter `TypedValue.GetDoubleValue`: zero unless the value is a double. -/
def TypedValue.GetDoubleValue : TypedValue → ℚ
  | .doubleValue v => v
  | _ => 0

/-- The message `monitoringpb.TimeInterval`. -/
structure TimeInterval where
  StartTime : Time
  EndTime : Time
  deriving DecidableEq, Repr

/-- The message `monitoringpb.TimeSeriesData_PointData`. -/
structure PointData where
  Values : List TypedValue
  TimeInterval : TimeInterval
  deriving DecidableEq, Repr

/-- The message `monitoringpb.TimeSeriesData`. -/
structure TimeSeriesData where
  LabelValues : List LabelValue
  PointData : List PointData
  deriving DecidableEq, Repr

/-! ## `types/monitoring.go`, `tracker.go`: labels and usage -/

/-- The label values extracted from the metrics (`types.Labels`). -/
structure Labels where
  ProjectID : String
  Location : String
  ClusterName : String
  Namespace : String
  PodName : String
  Container : String
  deriving DecidableEq, Repr

/-- The usage data extracted from metrics (`tracker.Usage`). -/
structure Usage where
  StartTime : Time
  EndTime : Time
  Value : ℚ
  AvgUsage : ℚ
  deriving DecidableEq, Repr

/-- The function `parseMetricsLabels` of `tracker.go`. -/
def parseMetricsLabels (labels : List LabelValue) : Except Panic (Except GoError Labels) :=
  if labels.length ≠ 6 then
    .ok (.error (.parseLabelValues labels.length))
  else do
    let l0 ← index labels 0
    let l1 ← index labels 1
    let l2 ← index labels 2
    let l3 ← index labels 3
    let l4 ← index labels 4
    let l5 ← index labels 5
    return .ok {
      ProjectID := l0.GetStringValue
      Location := l1.GetStringValue
      ClusterName := l2.GetStringValue
      Namespace := l3.GetStringValue
      PodName := l4.GetStringValue
      Container := l5.GetStringValue }

/-- The `for _, pd := range pds` loop of `calcUsage`, threading `sum` and `u`. -/
def calcUsage.loop : List PointData → ℚ → ℚ → Except Panic (ℚ × ℚ)
  | [], sum, u => .ok (sum, u)
  | pd :: rest, sum, u => do
    let duration := (pd.TimeInterval.EndTime.Sub pd.TimeInterval.StartTime).Seconds
    let v ← index pd.Values 0
    let sum := sum + v.GetDoubleValue * duration
    let v ← index pd.Values 0
    let u := u + v.GetDoubleValue
    calcUsage.loop rest sum u

/-- The function `calcUsage` of `tracker.go`. -/
def calcUsage (pds : List PointData) : Except Panic Usage := do
  let (sum, u) ← calcUsage.loop pds 0 0
  let first ← index pds 0
  let startTime := first.TimeInterval.StartTime
  let last ← index pds (pds.length - 1)
  let endTime := last.TimeInterval.EndTime
  return {
    StartTime := startTime
    EndTime := endTime
    Value := sum
    AvgUsage := u / (pds.length : ℚ) }

/-! ## `config/config.go` and `util/monitoring.go` -/

/-- The constant `config.DefaultResolution`: a datapoint every minute. -/
def DefaultResolution : String := "1m"

/-- The constant `config.DefaultPeriod`. -/
def DefaultPeriod : String := "1h"

/-- The constant `config.DefaultStart`. -/
def DefaultStart : String := "-75m"

/-- The library function `time.ParseDuration`, on the duration literals of
`config.go`; any other string is reported as invalid, with the zero duration. -/
def ParseDuration (s : String) : Duration × Option GoError :=
  if s = "1m" then (60 * 1000000000, none)
  else if s = "1h" then (3600 * 1000000000, none)
  else if s = "-75m" then (-(4500 * 1000000000), none)
  else (0, some (.invalidDuration s))

/-- The `less` closure handed to `sort.Slice` in `QueryTimeSeries`:
`t1.Before(t2)` on the start times. -/
def startBefore (a b : PointData) : Bool :=
  decide (a.TimeInterval.StartTime < b.TimeInterval.StartTime)

/-- The library function `sort.Slice`, as an insertion sort driven by `less`.
The library leaves the order of elements that `less` does not separate
unspecified; this model keeps them in their input order. -/
def sortSlice {α : Type} (less : α → α → Bool) (s : List α) : List α :=
  s.insertionSort (fun a b => less b a = false)

/-- The body of the `for _, pd := range resp.PointData` loop of
`QueryTimeSeries`: a zero-width interval gets its end moved by the
resolution. -/
def normalizePoint (pd : PointData) : PointData :=
  let start := pd.TimeInterval.StartTime
  let endTime := pd.TimeInterval.EndTime
  if start = endTime then
    let duration := (ParseDuration DefaultResolution).1
    { pd with TimeInterval := { pd.TimeInterval with EndTime := endTime.Add duration } }
  else pd

/-- What `QueryTimeSeries` does to one response before appending it to `data`. -/
def prepareSeries (resp : TimeSeriesData) : TimeSeriesData :=
  { resp with PointData := (sortSlice startBefore resp.PointData).map normalizePoint }

/-- The iteration of `QueryTimeSeries` over the results of `it.Next()`: the
list holds the successive results, and its end is `iterator.Done`. -/
def QueryTimeSeries.loop :
    List (Except GoError TimeSeriesData) → List TimeSeriesData →
      List TimeSeriesData × Option GoError
  | [], data => (data, none)
  | .error err :: _, data => (data, some (.queryTimeSeries err))
  | .ok resp :: rest, data => QueryTimeSeries.loop rest (data ++ [prepareSeries resp])

/-- The method `MonitoringClient.QueryTimeSeries`, given the results the
backend iterator yields for the request. -/
def QueryTimeSeries (backend : List (Except GoError TimeSeriesData)) :
    List TimeSeriesData × Option GoError :=
  QueryTimeSeries.loop backend []

/-! ## Go maps -/

/-- A Go `map[string]β`: an association list in which every key occurs once. -/
structure GoMap (β : Type) where
  entries : List (String × β)
  deriving DecidableEq, Repr

/-- The empty map literal. -/
def GoMap.empty {β : Type} : GoMap β := ⟨[]⟩

/-- Lookup in an association list. -/
def GoMap.lookupIn {β : Type} (k : String) : List (String × β) → Option β
  | [] => none
  | (k1, v) :: rest => if k1 = k then some v else GoMap.lookupIn k rest

/-- Replacement or insertion in an association list. -/
def GoMap.setIn {β : Type} (k : String) (v : β) : List (String × β) → List (String × β)
  | [] => [(k, v)]
  | (k1, v1) :: rest => if k1 = k then (k, v) :: rest else (k1, v1) :: GoMap.setIn k v rest

/-- The read `v, ok := m[k]`. -/
def GoMap.lookup {β : Type} (m : GoMap β) (k : String) : Option β :=
  GoMap.lookupIn k m.entries

/-- The assignment `m[k] = v`. -/
def GoMap.set {β : Type} (m : GoMap β) (k : String) (v : β) : GoMap β :=
  ⟨GoMap.setIn k v m.entries⟩

/-! ## `types/cluster.go`, `types/cache.go` -/

/-- The part of the message `containerpb.Cluster` that the program reads. -/
structure V1Cluster where
  Name : String
  Endpoint : String
  ClusterCaCertificate : String
  deriving DecidableEq, Repr

set_option linter.dupNamespace false in
/-- The definition of a cluster object (`types.Cluster`). -/
structure Cluster where
  ProjectID : String
  Name : String
  Location : String
  Cluster : Option V1Cluster
  deriving DecidableEq, Repr

/-- The method `Cluster.String`: `fmt.Sprintf("%s-%s-%s", ProjectID, Location, Name)`. -/
def Cluster.String (c : Consumption.Cluster) : String :=
  c.ProjectID ++ "-" ++ c.Location ++ "-" ++ c.Name

/-- The part of a Kubernetes `v1.Node` that the program reads; the capacities are
`Status.Capacity.Cpu().Value()` and `Status.Capacity.Memory().Value()`. -/
structure V1Node where
  Name : String
  Labels : Option (GoMap String)
  CpuCapacity : Int
  MemoryCapacity : Int
  deriving DecidableEq, Repr

/-- The part of a Kubernetes `v1.Pod` that the program reads. -/
structure V1Pod where
  Labels : Option (GoMap String)
  NodeName : String
  deriving DecidableEq, Repr

/-- The cache entry for a node (`types.NodeCache`). -/
structure NodeCache where
  ProjectID : String
  ClusterName : String
  ClusterLocation : String
  NodeName : String
  MachineType : String
  Preemptible : Bool
  Region : String
  CPUSKU : String
  CPUSize : Int
  MemSKU : String
  MemSize : Int
  LastUpdate : Time
  deriving DecidableEq, Repr

def gkePreemptibleLabel : String := "cloud.google.com/gke-preemptible"

def gkeSpotLabel : String := "cloud.google.com/gke-spot"

/-- The constant `v1.LabelZoneRegionStable`. -/
def LabelZoneRegionStable : String := "topology.kubernetes.io/region"

/-- The constant `v1.LabelZoneRegion`. -/
def LabelZoneRegion : String := "failure-domain.beta.kubernetes.io/region"

/-- The constant `v1.LabelInstanceTypeStable`. -/
def LabelInstanceTypeStable : String := "node.kubernetes.io/instance-type"

/-- The constant `v1.LabelInstanceType`. -/
def LabelInstanceType : String := "beta.kubernetes.io/instance-type"

/-- A read `labels[key]` of a map that may be nil. -/
def readLabel (labels : Option (GoMap String)) (key : String) : Option String :=
  match labels with
  | none => none
  | some m => m.lookup key

/-- The function `readLabels`: the first value with a key match, else `""`. -/
def readLabels (labels : Option (GoMap String)) : List String → String
  | [] => ""
  | key :: keys =>
    match readLabel labels key with
    | some val => val
    | none => readLabels labels keys

def extractNodeRegion (n : V1Node) : String :=
  readLabels n.Labels [LabelZoneRegionStable, LabelZoneRegion]

def extractNodeInstanceType (n : V1Node) : String :=
  readLabels n.Labels [LabelInstanceTypeStable, LabelInstanceType]

/-- The library function `strconv.ParseBool`. -/
def ParseBool (str : String) : Option Bool :=
  if str ∈ ["1", "t", "T", "TRUE", "true", "True"] then some true
  else if str ∈ ["0", "f", "F", "FALSE", "false", "False"] then some false
  else none

/-- The loop of `isPreemptible` over the label keys. -/
def isPreemptible.loop (labels : Option (GoMap String)) : List String → Except GoError Bool
  | [] => .ok false
  | l :: ls =>
    match readLabel labels l with
    | none => isPreemptible.loop labels ls
    | some val =>
      match ParseBool val with
      | none => .error (.invalidLabelValue val)
      | some parsed => if parsed then .ok true else isPreemptible.loop labels ls

def isPreemptible (node : V1Node) : Except GoError Bool :=
  isPreemptible.loop node.Labels [gkePreemptibleLabel, gkeSpotLabel]

/-- The function `FromV1Node`; `now` is the value of `time.Now()`. -/
def FromV1Node (now : Time) (node : V1Node) (cluster : Cluster) : Except GoError NodeCache :=
  match isPreemptible node with
  | .error err => .error (.checkPreemptible err)
  | .ok preemptible =>
    .ok {
      ProjectID := cluster.ProjectID
      ClusterName := cluster.Name
      ClusterLocation := cluster.Location
      NodeName := node.Name
      MachineType := extractNodeInstanceType node
      Preemptible := preemptible
      Region := extractNodeRegion node
      CPUSKU := ""
      CPUSize := node.CpuCapacity
      MemSKU := ""
      MemSize := node.MemoryCapacity
      LastUpdate := now }

/-! ## Collaborators -/

/-- The answers of the collaborators during one run: the cluster manager API,
the authentication layer, the Kubernetes API of each cluster (addressed through
a client set, a number here) and the wall clock. -/
structure World where
  /-- The call `ClusterManagerClient.GetCluster`, by request name. -/
  clusterManagerGetCluster : String → Except GoError V1Cluster
  /-- The call `auth.OAuthTransport`, yielding a transport. -/
  oauthTransport : Option V1Cluster → Except GoError Nat
  /-- The call `kubernetes.NewForConfig`, by host and transport, yielding a client set. -/
  newForConfig : String → Nat → Except GoError Nat
  /-- The call `client.CoreV1().Pods(namespace).Get(ctx, name, ...)`. -/
  podsGet : Nat → String → String → Except GoError V1Pod
  /-- The call `client.CoreV1().Nodes().Get(ctx, name, ...)`. -/
  nodesGet : Nat → String → Except GoError V1Node
  /-- The call `time.Now()`. -/
  now : Time

/-! ## `util/container.go`, `util/k8s.go` -/

/-- The method `ContainerClient.GetCluster`. -/
def GetCluster (w : World) (cluster : Cluster) : Except GoError V1Cluster :=
  w.clusterManagerGetCluster
    ("projects/" ++ cluster.ProjectID ++ "/locations/" ++ cluster.Location
      ++ "/clusters/" ++ cluster.Name)

/-- The wrapper `util.K8sClient` around a client set. -/
structure K8sClient where
  cluster : Cluster
  client : Nat
  deriving DecidableEq, Repr

/-- The getter `Cluster.GetEndpoint` of the message, safe on nil. -/
def GetEndpoint (c : Option V1Cluster) : String :=
  match c with
  | some v => v.Endpoint
  | none => ""

/-- The function `NewK8sClient`. -/
def NewK8sClient (w : World) (cluster : Cluster) : Except GoError K8sClient :=
  match w.oauthTransport cluster.Cluster with
  | .error err => .error err
  | .ok otr =>
    match w.newForConfig ("https://" ++ GetEndpoint cluster.Cluster) otr with
    | .error err => .error (.createKubeClient err)
    | .ok kubeclient => .ok { cluster := cluster, client := kubeclient }

/-- The method `K8sClient.GetPod`. -/
def K8sClient.GetPod (w : World) (c : K8sClient) (ns name : String) : Except GoError V1Pod :=
  match w.podsGet c.client ns name with
  | .error err => .error (.getPod ns name err)
  | .ok pod => .ok pod

/-- The method `K8sClient.GetNode`. -/
def K8sClient.GetNode (w : World) (c : K8sClient) (name : String) : Except GoError NodeCache :=
  match w.nodesGet c.client name with
  | .error err => .error (.getNode name err)
  | .ok node =>
    match FromV1Node w.now node c.cluster with
    | .error err => .error (.convertNode name err)
    | .ok nc => .ok nc

/-! ## `tracker.go`: the client store -/

/-- A call that `GetOrCreate` makes while creating a client. -/
inductive Call where
  /-- The call `s.container.GetCluster(ctx, cluster)`, for the cluster with this key. -/
  | GetCluster (key : String)
  /-- The call `util.NewK8sClient(ctx, cluster, s.nodeStore)`, for the cluster with this key. -/
  | NewK8sClient (key : String)
  deriving DecidableEq, Repr

/-- The in-memory store for the cluster-k8sclient map (`K8sClientStore`). -/
structure K8sClientStore where
  clientmap : GoMap K8sClient
  deriving DecidableEq, Repr

/-- The function `NewK8sClientStore`. -/
def NewK8sClientStore : K8sClientStore := { clientmap := GoMap.empty }

/-- What a call of `GetOrCreate` leaves behind: its two return values, the
store afterwards and the calls it made, in order. -/
structure GetOrCreateResult where
  result : Except GoError K8sClient
  store : K8sClientStore
  calls : List Call

/-- The method `K8sClientStore.GetOrCreate`. -/
def K8sClientStore.GetOrCreate (w : World) (s : K8sClientStore) (cluster : Cluster) :
    GetOrCreateResult :=
  let key := cluster.String
  match s.clientmap.lookup key with
  | some c => { result := .ok c, store := s, calls := [] }
  | none =>
    match GetCluster w cluster with
    | .error err => { result := .error err, store := s, calls := [.GetCluster key] }
    | .ok v1Cluster =>
      let cluster := { cluster with Cluster := some v1Cluster }
      match NewK8sClient w cluster with
      | .error err =>
        { result := .error err, store := s, calls := [.GetCluster key, .NewK8sClient key] }
      | .ok c =>
        { result := .ok c
          store := { s with clientmap := s.clientmap.set key c }
          calls := [.GetCluster key, .NewK8sClient key] }

/-! ## `types/usagerecord.go` -/

/-- A `float64` that results from a division: a finite number (kept exact) or
one of the IEEE 754 special values. -/
inductive F64 where
  | finite (q : ℚ)
  | posInf
  | negInf
  | nan
  deriving DecidableEq, Repr

/-- The float division `x / y` of two finite numbers; a zero divisor is the
positive zero that `float64` of the integer zero gives. -/
def F64.div (x y : ℚ) : F64 :=
  if y ≠ 0 then .finite (x / y)
  else if 0 < x then .posInf
  else if x < 0 then .negInf
  else .nan

/-- The property of being neither NaN nor infinite. -/
def F64.isFinite : F64 → Bool
  | .finite _ => true
  | _ => false

/-- The key and value of a Kubernetes label (`types.Label`). -/
structure Label where
  Key : String
  Value : String
  deriving DecidableEq, Repr

/-- The function `ToLabelSlice`.  Go ranges over the map in an unspecified
order; here the order is that of the association list. -/
def ToLabelSlice (m : GoMap String) : List Label :=
  m.entries.map (fun kv => { Key := kv.1, Value := kv.2 })

/-- Information about a GCP project (`types.Project`). -/
structure Project where
  ID : String
  deriving DecidableEq, Repr

def UsageUnitBytes : String := "bytes"

def UsageUnitByteSeconds : String := "byte-seconds"

def UsageUnitSeconds : String := "seconds"

/-- The constant `v1.ResourceCPU`. -/
def ResourceCPU : String := "cpu"

/-- The constant `v1.ResourceMemory`. -/
def ResourceMemory : String := "memory"

/-- The usage of a cloud resource (`types.Usage`). -/
structure types.Usage where
  Amount : ℚ
  Unit : String
  deriving DecidableEq, Repr

/-- The record `types.UsageRecord`.  `Project` and `Usage` are pointers in the
source; every record built by `queryUsages` has both set. -/
structure UsageRecord where
  ResourceID : Nat
  Region : String
  ClusterLocation : String
  ClusterName : String
  Namespace : String
  ResourceName : String
  SkuID : String
  StartTime : Time
  EndTime : Time
  Fraction : F64
  CloudResourceSize : Int
  Labels : List Label
  Project : Project
  Usage : types.Usage
  deriving DecidableEq, Repr

/-! ## `tracker.go`: one query -/

/-- The type `resourceType`, an `int64`. -/
abbrev resourceType := Int

def typeCPU : resourceType := 0

def typeMem : resourceType := 1

def podNameKey : String := "pod-name"

def containerNameKey : String := "container-name"

/-- The statement `switch r` of `queryUsages`, which fills in the fields that
depend on the resource type. -/
def applyResourceType (r : resourceType) (usage : Usage) (node : NodeCache)
    (ur : UsageRecord) : UsageRecord :=
  if r = typeCPU then
    { ur with
      ResourceName := ResourceCPU
      Usage := { ur.Usage with Unit := UsageUnitSeconds }
      Fraction := F64.div usage.AvgUsage (node.CPUSize : ℚ)
      CloudResourceSize := node.CPUSize }
  else if r = typeMem then
    { ur with
      ResourceName := ResourceMemory
      Usage := { ur.Usage with Unit := UsageUnitByteSeconds }
      Fraction := F64.div usage.AvgUsage (node.MemSize : ℚ)
      CloudResourceSize := node.MemSize }
  else ur

/-- The composite literal `types.UsageRecord ...` of `queryUsages`; the fields
it does not mention have their zero value. -/
def newUsageRecord (labels : Labels) (usage : Usage) (podLabels : GoMap String) : UsageRecord :=
  { ResourceID := 0
    Region := ""
    ClusterLocation := labels.Location
    ClusterName := labels.ClusterName
    Namespace := labels.Namespace
    ResourceName := ""
    SkuID := ""
    StartTime := usage.StartTime
    EndTime := usage.EndTime
    Fraction := .finite 0
    CloudResourceSize := 0
    Labels := ToLabelSlice podLabels
    Project := { ID := labels.ProjectID }
    Usage := { Amount := usage.Value, Unit := "" } }

/-- What one iteration of the loop of `queryUsages` leaves behind: the record
appended to `urs` (none when the iteration ends in `continue`), the error it
logged then, the client store and the calls made. -/
structure GroupResult where
  record : Option UsageRecord
  logged : Option GoError
  store : K8sClientStore
  calls : List Call

/-- The body of the loop `for _, d := range dp` of `queryUsages`. -/
def queryUsages.body (w : World) (r : resourceType) (s : K8sClientStore)
    (d : TimeSeriesData) : Except Panic GroupResult := do
  match ← parseMetricsLabels d.LabelValues with
  | .error err => return { record := none, logged := some err, store := s, calls := [] }
  | .ok labels =>
    let usage ← calcUsage d.PointData
    let cluster : Cluster :=
      { ProjectID := labels.ProjectID
        Location := labels.Location
        Name := labels.ClusterName
        Cluster := none }
    let g := s.GetOrCreate w cluster
    match g.result with
    | .error err =>
      return { record := none, logged := some err, store := g.store, calls := g.calls }
    | .ok k8sClient =>
      match k8sClient.GetPod w labels.Namespace labels.PodName with
      | .error err =>
        return { record := none, logged := some err, store := g.store, calls := g.calls }
      | .ok pod =>
        let podLabels := match pod.Labels with
          | none => GoMap.empty
          | some m => m
        let podLabels := podLabels.set podNameKey labels.PodName
        let podLabels := podLabels.set containerNameKey labels.Container
        match k8sClient.GetNode w pod.NodeName with
        | .error err =>
          return { record := none, logged := some err, store := g.store, calls := g.calls }
        | .ok node =>
          let ur := newUsageRecord labels usage podLabels
          let ur := applyResourceType r usage node ur
          return { record := some ur, logged := none, store := g.store, calls := g.calls }

/-- What a run of `queryUsages` leaves behind: the returned slice, the client
store and the calls made. -/
structure QueryResult where
  urs : List UsageRecord
  store : K8sClientStore
  calls : List Call

/-- The loop `for _, d := range dp` of `queryUsages`. -/
def queryUsages.loop (w : World) (r : resourceType) :
    List TimeSeriesData → QueryResult → Except Panic QueryResult
  | [], acc => .ok acc
  | d :: rest, acc => do
    let g ← queryUsages.body w r acc.store d
    let urs := match g.record with
      | some ur => acc.urs ++ [ur]
      | none => acc.urs
    queryUsages.loop w r rest { urs := urs, store := g.store, calls := acc.calls ++ g.calls }

/-- The method `MetricsTracker.queryUsages`: `backend` holds what the
monitoring iterator yields for the query, `s` is the tracker's client store. -/
def queryUsages (w : World) (backend : List (Except GoError TimeSeriesData))
    (s : K8sClientStore) (r : resourceType) : Except Panic QueryResult :=
  match QueryTimeSeries backend with
  | (_, some _) => .ok { urs := [], store := s, calls := [] }
  | (dp, none) => queryUsages.loop w r dp { urs := [], store := s, calls := [] }

/-! ## Specification vocabulary -/

/-- A sample of a window, as the specification reads it: start, end and raw value. -/
structure Sample where
  start : Time
  stop : Time
  value : ℚ
  deriving DecidableEq, Repr

/-- The point data message that carries a sample: one double value and the interval. -/
def Sample.toPointData (s : Sample) : PointData :=
  { Values := [.doubleValue s.value], TimeInterval := { StartTime := s.start, EndTime := s.stop } }

/-- The width of a sample in seconds. -/
def Sample.seconds (s : Sample) : ℚ := ((s.stop - s.start : Int) : ℚ) / 1000000000

/-- The raw value that `calcUsage` reads from a point: `GetValues()[0].GetDoubleValue()`. -/
def PointData.value (pd : PointData) : ℚ :=
  match pd.Values with
  | [] => 0
  | v :: _ => v.GetDoubleValue

/-- The width of the interval of a point in seconds. -/
def PointData.seconds (pd : PointData) : ℚ :=
  (pd.TimeInterval.EndTime.Sub pd.TimeInterval.StartTime).Seconds

/-! ## Vocabulary for the client store -/

/-- Two cluster objects name the same cluster when they agree on project,
location and name; the resolved descriptor is not part of the identity. -/
def Cluster.sameIdentity (c d : Consumption.Cluster) : Prop :=
  c.ProjectID = d.ProjectID ∧ c.Location = d.Location ∧ c.Name = d.Name

/-! ## Example inputs -/

/-- A world in which every collaborator answers: the node has 4 cores and no
memory capacity reported. -/
def exampleWorld : World :=
  { clusterManagerGetCluster := fun _ => .ok ⟨"c1", "10.0.0.1", "ca"⟩
    oauthTransport := fun _ => .ok 1
    newForConfig := fun _ _ => .ok 7
    podsGet := fun _ _ _ => .ok ⟨some ⟨[("app", "web")]⟩, "n1"⟩
    nodesGet := fun _ _ => .ok ⟨"n1", none, 4, 0⟩
    now := 0 }

/-- A world in which every collaborator fails. -/
def downWorld : World :=
  { clusterManagerGetCluster := fun _ => .error (.external 1)
    oauthTransport := fun _ => .error (.external 2)
    newForConfig := fun _ _ => .error (.external 3)
    podsGet := fun _ _ _ => .error (.external 4)
    nodesGet := fun _ _ => .error (.external 5)
    now := 0 }

/-- A world in which the cluster is resolved but authentication fails. -/
def noAuthWorld : World :=
  { exampleWorld with oauthTransport := fun _ => .error (.external 2) }

/-- The cluster object that `queryUsages` builds for project `p`, location `l`, cluster `c1`. -/
def exampleCluster : Cluster :=
  { ProjectID := "p", Name := "c1", Location := "l", Cluster := none }

/-- The handle that `exampleWorld` yields for `exampleCluster`. -/
def exampleClient : K8sClient :=
  { cluster := { exampleCluster with Cluster := some ⟨"c1", "10.0.0.1", "ca"⟩ }, client := 7 }

/-! ## Vocabulary for `QueryTimeSeries` -/

/-- The relation between a sample as received from the backend and the same
sample as returned: values and start are kept and a zero-width interval ends
60 seconds after its start. -/
def normalizedFrom (received returned : PointData) : Prop :=
  returned.Values = received.Values ∧
  returned.TimeInterval.StartTime = received.TimeInterval.StartTime ∧
  returned.TimeInterval.EndTime =
    (if received.TimeInterval.StartTime = received.TimeInterval.EndTime
      then received.TimeInterval.StartTime + 60 * 1000000000
      else received.TimeInterval.EndTime)

/-- The order that `sort.Slice` establishes with the closure `startBefore`. -/
def startLE (a b : PointData) : Prop := startBefore b a = false

instance : DecidableRel startLE := fun a b => by
  unfold startLE
  infer_instance

/-! ## Vocabulary for `queryUsages` -/

/-- The cluster object that the loop body builds from the labels of a group. -/
def clusterOf (labels : Labels) : Cluster :=
  { ProjectID := labels.ProjectID
    Location := labels.Location
    Name := labels.ClusterName
    Cluster := none }

/-- The label map of a record: the labels of the pod (none when the map is
nil) with the two synthesized labels written over them. -/
def podLabelsOf (labels : Labels) (pod : V1Pod) : GoMap String :=
  ((match pod.Labels with
    | none => GoMap.empty
    | some m => m).set podNameKey labels.PodName).set containerNameKey labels.Container

/-- The test `len(labels) == 6` on the labels of a group. -/
def sixLabels (d : TimeSeriesData) : Bool := decide (d.LabelValues.length = 6)

/-- Resolution succeeds for a group on the client store `s`: the group has at
least one sample, `GetOrCreate` for the cluster that its labels name yields a
handle, and through that handle the pod and then its node are found. -/
def ResolvesOn (w : World) (s : K8sClientStore) (d : TimeSeriesData) : Prop :=
  d.PointData ≠ [] ∧
  ∀ labels, parseMetricsLabels d.LabelValues = .ok (.ok labels) →
    ∃ k pod node, (s.GetOrCreate w (clusterOf labels)).result = .ok k ∧
      k.GetPod w labels.Namespace labels.PodName = .ok pod ∧
      k.GetNode w pod.NodeName = .ok node

/-- Every sample of the group carries at least one value. -/
def CarriesValues (d : TimeSeriesData) : Prop :=
  ∀ pd ∈ d.PointData, pd.Values ≠ []

/-- The record `ur` is the record of the group `d`: it carries the project,
location, cluster and namespace that the labels of `d` name, the pod and the
container as labels, and the time window and integrated usage of the samples
of `d`. -/
def recordOfGroup (d : TimeSeriesData) (ur : UsageRecord) : Prop :=
  ∃ labels usage, parseMetricsLabels d.LabelValues = .ok (.ok labels) ∧
    calcUsage d.PointData = .ok usage ∧
    ur.Project.ID = labels.ProjectID ∧ ur.ClusterLocation = labels.Location ∧
    ur.ClusterName = labels.ClusterName ∧ ur.Namespace = labels.Namespace ∧
    ur.StartTime = usage.StartTime ∧ ur.EndTime = usage.EndTime ∧
    ur.Usage.Amount = usage.Value ∧
    ({ Key := "pod-name", Value := labels.PodName } : Label) ∈ ur.Labels ∧
    ({ Key := "container-name", Value := labels.Container } : Label) ∈ ur.Labels

/-! ## Example groups -/

/-- The six label values of a group: project, location, cluster, namespace,
pod and container. -/
def exampleLabelValues : List LabelValue :=
  [.stringValue "p", .stringValue "l", .stringValue "c1", .stringValue "ns1",
    .stringValue "p1", .stringValue "ctr"]

/-- The labels that `parseMetricsLabels` reads from `exampleLabelValues`. -/
def exampleLabels : Labels :=
  { ProjectID := "p", Location := "l", ClusterName := "c1", Namespace := "ns1",
    PodName := "p1", Container := "ctr" }

/-- A group as the backend sends it: three samples of half a core, out of
order, the earliest with a zero-width interval. -/
def receivedSeries : TimeSeriesData :=
  { LabelValues := exampleLabelValues
    PointData :=
      [ ⟨[.doubleValue (1 / 2)], ⟨60000000000, 120000000000⟩⟩,
        ⟨[.doubleValue (1 / 2)], ⟨0, 0⟩⟩,
        ⟨[.doubleValue (1 / 2)], ⟨120000000000, 180000000000⟩⟩ ] }

/-- The group `receivedSeries` as `QueryTimeSeries` returns it. -/
def returnedSeries : TimeSeriesData :=
  { LabelValues := exampleLabelValues
    PointData :=
      [ ⟨[.doubleValue (1 / 2)], ⟨0, 60000000000⟩⟩,
        ⟨[.doubleValue (1 / 2)], ⟨60000000000, 120000000000⟩⟩,
        ⟨[.doubleValue (1 / 2)], ⟨120000000000, 180000000000⟩⟩ ] }

/-- A malformed group: five labels. -/
def malformedSeries : TimeSeriesData :=
  { LabelValues := exampleLabelValues.take 5
    PointData := [⟨[.doubleValue 1], ⟨0, 60000000000⟩⟩] }

/-- A group with six labels and no sample. -/
def emptySeries : TimeSeriesData :=
  { LabelValues := exampleLabelValues, PointData := [] }

/-- The usage of `returnedSeries`. -/
def exampleUsage : Usage :=
  { StartTime := 0, EndTime := 180000000000, Value := 90, AvgUsage := 1 / 2 }

/-- The pod that `exampleWorld` reports. -/
def examplePod : V1Pod := { Labels := some ⟨[("app", "web")]⟩, NodeName := "n1" }

/-- The node that `exampleWorld` reports, as converted for `exampleClient`. -/
def exampleNode : NodeCache :=
  { ProjectID := "p", ClusterName := "c1", ClusterLocation := "l", NodeName := "n1"
    MachineType := "", Preemptible := false, Region := "", CPUSKU := "", CPUSize := 4
    MemSKU := "", MemSize := 0, LastUpdate := 0 }

/-- The memory record of `returnedSeries` on `exampleNode`, which reports no
memory capacity. -/
def infiniteRecord : UsageRecord :=
  { ResourceID := 0
    Region := ""
    ClusterLocation := "l"
    ClusterName := "c1"
    Namespace := "ns1"
    ResourceName := "memory"
    SkuID := ""
    StartTime := 0
    EndTime := 180000000000
    Fraction := .posInf
    CloudResourceSize := 0
    Labels := [⟨"app", "web"⟩, ⟨"pod-name", "p1"⟩, ⟨"container-name", "ctr"⟩]
    Project := { ID := "p" }
    Usage := { Amount := 90, Unit := "byte-seconds" } }

/-! ## Example clusters with one key -/

/-- A regional cluster `a-prod` of project `x` in `us-central1`. -/
def regionalCluster : Cluster :=
  { ProjectID := "x", Name := "a-prod", Location := "us-central1", Cluster := none }

/-- A zonal cluster `prod` of project `x` in `us-central1-a`. -/
def zonalCluster : Cluster :=
  { ProjectID := "x", Name := "prod", Location := "us-central1-a", Cluster := none }

/-- The handle that `exampleWorld` yields for `regionalCluster`. -/
def regionalClient : K8sClient :=
  { cluster := { regionalCluster with Cluster := some ⟨"c1", "10.0.0.1", "ca"⟩ }, client := 7 }

/-! ## Vocabulary for label maps -/

/-- The keys of an association list, in order. -/
def GoMap.keysIn {β : Type} (l : List (String × β)) : List String := l.map Prod.fst

/-- The invariant of a Go map: no key occurs twice. -/
def GoMap.WF {β : Type} (m : GoMap β) : Prop := (GoMap.keysIn m.entries).Nodup

/-- A pod that already carries a label with the key `pod-name`. -/
def relabelledPod : V1Pod :=
  { Labels := some ⟨[("pod-name", "old"), ("app", "web")]⟩, NodeName := "n1" }

/-- The world `exampleWorld` with `relabelledPod` as the pod. -/
def relabelWorld : World :=
  { exampleWorld with podsGet := fun _ _ _ => .ok relabelledPod }

/-! ## `util/bigquery.go`: the schema -/

/-- The part of `bigquery.FieldSchema` that describes a column: name,
description, mode flags, type and, for a record, the nested schema. -/
inductive FieldSchema where
  | mk (Name : String) (Description : String) (Repeated : Bool) (Required : Bool)
      (FieldType : String) (Schema : List FieldSchema)
  deriving Repr

/-- The type `bigquery.Schema`. -/
abbrev Schema := List FieldSchema

mutual
/-- The body of the loop of `setFieldOptional` for one field. -/
def setFieldOptionalField : FieldSchema → FieldSchema
  | .mk name description repeated _ fieldType schema =>
    .mk name description repeated false fieldType (setFieldOptional schema)
/-- The function `setFieldOptional`; the schema is updated in place in the
source and returned here. -/
def setFieldOptional : List FieldSchema → List FieldSchema
  | [] => []
  | fieldSchema :: rest => setFieldOptionalField fieldSchema :: setFieldOptional rest
end

mutual
/-- The field and every field nested in it have `Required = false`. -/
def FieldSchema.allOptional : FieldSchema → Bool
  | .mk _ _ _ required _ schema => !required && allOptional schema
/-- Every field of the schema, at every depth, has `Required = false`. -/
def allOptional : List FieldSchema → Bool
  | [] => true
  | fieldSchema :: rest => fieldSchema.allOptional && allOptional rest
end

/-- A field schema without its `Required` flag. -/
inductive FieldShape where
  | mk (Name : String) (Description : String) (Repeated : Bool) (FieldType : String)
      (Schema : List FieldShape)
  deriving Repr

mutual
/-- The shape of a field: everything but the `Required` flags. -/
def FieldSchema.shape : FieldSchema → FieldShape
  | .mk name description repeated _ fieldType schema =>
    .mk name description repeated fieldType (shapes schema)
/-- The shapes of the fields of a schema, in order. -/
def shapes : List FieldSchema → List FieldShape
  | [] => []
  | fieldSchema :: rest => fieldSchema.shape :: shapes rest
end

/-- A schema with a required field nested in a required record. -/
def exampleSchema : Schema :=
  [ .mk "namespace" "" false true "STRING" [],
    .mk "usage" "" false true "RECORD"
      [ .mk "amount" "" false true "FLOAT" [], .mk "unit" "" false false "STRING" [] ],
    .mk "labels" "" true false "RECORD"
      [ .mk "key" "" false true "STRING" [], .mk "value" "" false true "STRING" [] ] ]

/-! ## `util/bigquery.go`: writing -/

/-- The answers of the analytics sink during one write: the metadata request
for the table, schema inference for `types.UsageRecord`, the creation of the
table and the insertion of the rows. -/
structure BigQuery where
  /-- The call `table.Metadata(ctx)`: its error, if any. -/
  tableMetadata : Option GoError
  /-- The call `bigquery.InferSchema(types.UsageRecord{})`. -/
  inferSchema : Except GoError Schema
  /-- The call `table.Create(ctx, metadata)` with the schema of `metadata`. -/
  tableCreate : Schema → Option GoError
  /-- The call `inserter.Put(ctx, records)`. -/
  put : List UsageRecord → Option GoError

/-- The function `isNotFound`: the error is an API error with code 404. -/
def isNotFound (err : GoError) : Bool :=
  match err with
  | .external code => code == 404
  | _ => false

/-- The function `generateSchema`. -/
def generateSchema (b : BigQuery) : Except GoError Schema :=
  match b.inferSchema with
  | .error err => .error (.inferSchema err)
  | .ok schema => .ok (setFieldOptional schema)

/-- The function `getOrCreateTable`: its error, if any. -/
def getOrCreateTable (b : BigQuery) : Option GoError :=
  match b.tableMetadata with
  | none => none
  | some err =>
    if isNotFound err then
      match generateSchema b with
      | .error err => some err
      | .ok schema =>
        match b.tableCreate schema with
        | some err => some (.createTable err)
        | none => none
    else some (.getTableMetadata err)

/-- The method `BigQueryClient.WriteUsage`: its error, if any. -/
def WriteUsage (b : BigQuery) (records : List UsageRecord) : Option GoError :=
  match getOrCreateTable b with
  | some err => some (.getTable err)
  | none =>
    match b.put records with
    | some err => some (.writeTable err)
    | none => none

/-! ## `query/monitoring.go` and `tracker.go`: one export cycle -/

/-- The indentation of the lines of the query texts. -/
def queryIndent (n : Nat) : String := String.mk (List.replicate n '\t')

/-- The query `query.CPUUsageTime`. -/
def CPUUsageTime : String :=
  "fetch k8s_container\n"
  ++ queryIndent 17 ++ "| metric \x27kubernetes.io/container/cpu/core_usage_time\x27\n"
  ++ queryIndent 17 ++ "| align rate(" ++ DefaultResolution ++ ")\n"
  ++ queryIndent 17 ++ "| every " ++ DefaultResolution ++ "\n"
  ++ queryIndent 17 ++ "| group_by\n"
  ++ queryIndent 19 ++ "[resource.project_id, resource.location, resource.cluster_name,\n"
  ++ queryIndent 19 ++ "resource.namespace_name, resource.pod_name, resource.container_name],\n"
  ++ queryIndent 19 ++ "[value_core_usage_time_aggregate: aggregate(value.core_usage_time)]\n"
  ++ queryIndent 17 ++ "| within " ++ DefaultStart ++ ", " ++ DefaultPeriod

/-- The query `query.MemoryUsedBytes`. -/
def MemoryUsedBytes : String :=
  "fetch k8s_container\n"
  ++ queryIndent 17 ++ "| metric \x27kubernetes.io/container/memory/used_bytes\x27\n"
  ++ queryIndent 17 ++ "| group_by " ++ DefaultResolution
    ++ ", [value_used_bytes_mean: mean(value.used_bytes)]\n"
  ++ queryIndent 17 ++ "| every " ++ DefaultResolution ++ "\n"
  ++ queryIndent 17 ++ "| group_by\n"
  ++ queryIndent 19 ++ "[resource.project_id, resource.location, resource.cluster_name,\n"
  ++ queryIndent 19 ++ "resource.namespace_name, resource.pod_name, resource.container_name],\n"
  ++ queryIndent 19 ++ "[value_used_bytes_mean_mean: mean(value_used_bytes_mean)]\n"
  ++ queryIndent 17 ++ "| within " ++ DefaultStart ++ ", " ++ DefaultPeriod

/-- The telemetry source: what the iterator of `client.QueryTimeSeries` yields
for a request, by request name and query text. -/
abbrev Monitoring := String → String → List (Except GoError TimeSeriesData)

/-- The request of `QueryTimeSeries` for a query: the iterator results for the
name `projects/<ProjectID>` and the query text. -/
def monitoringRequest (m : Monitoring) (projectID q : String) :
    List (Except GoError TimeSeriesData) :=
  m ("projects/" ++ projectID) q

/-- The method `MetricsTracker.exportCPU`. -/
def exportCPU (w : World) (m : Monitoring) (projectID : String) (s : K8sClientStore) :
    Except Panic QueryResult :=
  queryUsages w (monitoringRequest m projectID CPUUsageTime) s typeCPU

/-- The method `MetricsTracker.exportMemory`. -/
def exportMemory (w : World) (m : Monitoring) (projectID : String) (s : K8sClientStore) :
    Except Panic QueryResult :=
  queryUsages w (monitoringRequest m projectID MemoryUsedBytes) s typeMem

/-- What a run of `export` leaves behind: the batches handed to
`WriteUsage`, one for each call and in order, the error it logged for the
write, the client store and the calls made for clients. -/
structure ExportResult where
  writes : List (List UsageRecord)
  logged : Option GoError
  store : K8sClientStore
  calls : List Call

/-- The method `MetricsTracker.export`. -/
def MetricsTracker.export (w : World) (m : Monitoring) (b : BigQuery) (projectID : String)
    (s : K8sClientStore) : Except Panic ExportResult := do
  let urs : List UsageRecord := []
  let cpu ← exportCPU w m projectID s
  let urs := urs ++ cpu.urs
  let mem ← exportMemory w m projectID cpu.store
  let urs := urs ++ mem.urs
  let err := WriteUsage b urs
  return { writes := [urs], logged := err, store := mem.store, calls := cpu.calls ++ mem.calls }

/-- A group as the backend sends it for the memory query: one sample of one
minute with 1024 bytes in use. -/
def memorySeries : TimeSeriesData :=
  { LabelValues := exampleLabelValues
    PointData := [⟨[.doubleValue 1024], ⟨0, 60000000000⟩⟩] }

/-- The usage of `memorySeries`. -/
def memoryUsage : Usage :=
  { StartTime := 0, EndTime := 60000000000, Value := 61440, AvgUsage := 1024 }

/-- A telemetry source that has the group `receivedSeries` for the CPU query,
the group `memorySeries` for the memory query and no group for any other. -/
def exampleMonitoring : Monitoring :=
  fun _ q =>
    if q = CPUUsageTime then [.ok receivedSeries]
    else if q = MemoryUsedBytes then [.ok memorySeries]
    else []

/-- A telemetry source whose CPU query has a six-label group without samples. -/
def emptyWindowMonitoring : Monitoring :=
  fun _ q => if q = CPUUsageTime then [.ok emptySeries] else []

/-- The world `exampleWorld` with a node of 4 cores and 4096 bytes of memory. -/
def meteredWorld : World :=
  { exampleWorld with nodesGet := fun _ _ => .ok ⟨"n1", none, 4, 4096⟩ }

/-- The node that `meteredWorld` reports, as converted for `exampleClient`. -/
def meteredNode : NodeCache := { exampleNode with MemSize := 4096 }

/-- A sink whose table exists and whose insertion fails. -/
def failingSink : BigQuery :=
  { tableMetadata := none
    inferSchema := .ok exampleSchema
    tableCreate := fun _ => none
    put := fun _ => some (.external 500) }

/-- The CPU record of `returnedSeries` on `meteredNode`. -/
def cpuRecord : UsageRecord :=
  applyResourceType 0 exampleUsage meteredNode
    (newUsageRecord exampleLabels exampleUsage (podLabelsOf exampleLabels examplePod))

/-- The memory record of `memorySeries` on `meteredNode`. -/
def memRecord : UsageRecord :=
  applyResourceType 1 memoryUsage meteredNode
    (newUsageRecord exampleLabels memoryUsage (podLabelsOf exampleLabels examplePod))

/-- The client store after the handle for `exampleLabels` is created. -/
def exampleStore : K8sClientStore :=
  (NewK8sClientStore.GetOrCreate meteredWorld (clusterOf exampleLabels)).store

/-- What the CPU query of `exampleMonitoring` leaves behind from the empty store. -/
def cpuResult : QueryResult :=
  { urs := [cpuRecord]
    store := exampleStore
    calls := [] ++ (NewK8sClientStore.GetOrCreate meteredWorld (clusterOf exampleLabels)).calls }

/-- What the memory query of `exampleMonitoring` leaves behind from `exampleStore`. -/
def memResult : QueryResult :=
  { urs := [memRecord]
    store := (exampleStore.GetOrCreate meteredWorld (clusterOf exampleLabels)).store
    calls := [] ++ (exampleStore.GetOrCreate meteredWorld (clusterOf exampleLabels)).calls }

/-! ## Example groups of two clusters with one key -/

/-- A world in which the cluster manager knows only the zonal cluster `prod`
of project `x` in `us-central1-a`; every other collaborator answers as in
`exampleWorld`. -/
def collisionWorld : World :=
  { exampleWorld with
    clusterManagerGetCluster := fun name =>
      if name = "projects/x/locations/us-central1-a/clusters/prod"
      then .ok ⟨"prod", "10.0.0.2", "ca"⟩
      else .error (.external 404) }

/-- A group of the regional cluster `a-prod` in `us-central1`. -/
def regionalSeries : TimeSeriesData :=
  { LabelValues :=
      [.stringValue "x", .stringValue "us-central1", .stringValue "a-prod",
        .stringValue "ns1", .stringValue "p1", .stringValue "ctr"]
    PointData := [⟨[.doubleValue 1], ⟨0, 60000000000⟩⟩] }

/-- A group of the zonal cluster `prod` in `us-central1-a`. -/
def zonalSeries : TimeSeriesData :=
  { LabelValues :=
      [.stringValue "x", .stringValue "us-central1-a", .stringValue "prod",
        .stringValue "ns1", .stringValue "p1", .stringValue "ctr"]
    PointData := [⟨[.doubleValue 1], ⟨0, 60000000000⟩⟩] }

/-- Two runs of `queryUsages` in sequence on one tracker, with the same
answers of the telemetry source and of the collaborators: the second run
starts from the client store that the first leaves. The result is the pair of
the two returned slices. -/
def queryUsagesTwice (w : World) (backend : List (Except GoError TimeSeriesData))
    (s : K8sClientStore) (r : resourceType) :
    Except Panic (List UsageRecord × List UsageRecord) := do
  let first ← queryUsages w backend s r
  let second ← queryUsages w backend first.store r
  return (first.urs, second.urs)

/-! ## `tracker.go`: the life cycle -/

/-- The state that `Start` and `Stop` act on: which clients are closed,
whether the ticker created by `Start` is still active, whether the goroutine
of `Start` is in its loop, whether the context of the cycles is cancelled, and
how many export cycles have begun. -/
structure Scheduler where
  bigqueryClosed : Bool
  containerClosed : Bool
  monitoringClosed : Bool
  tickerActive : Bool
  looping : Bool
  contextCancelled : Bool
  cycles : Nat
  deriving DecidableEq, Repr

/-- The lifecycle part of the structure `MetricsTracker`: the field `cancel`,
a function or nil. -/
structure MetricsTracker where
  cancel : Option (Scheduler → Scheduler)

/-- The state before `Start`: nothing is closed, nothing runs. -/
def Scheduler.initial : Scheduler :=
  { bigqueryClosed := false, containerClosed := false, monitoringClosed := false
    tickerActive := false, looping := false, contextCancelled := false, cycles := 0 }

/-- The function `NewMetricsTracker`, when every client is created: the
composite literal does not mention `cancel`, which is nil. -/
def NewMetricsTracker : MetricsTracker := { cancel := none }

/-- The method `MetricsTracker.Start`: it creates the ticker and launches the
goroutine, which begins one export cycle and then waits on the ticker in a
loop without exit. -/
def MetricsTracker.Start (_t : MetricsTracker) (σ : Scheduler) : Scheduler :=
  { σ with tickerActive := true, looping := true, cycles := σ.cycles + 1 }

/-- The branch `case <-exportTicker.C(): t.export(ctx)` of the loop of `Start`:
when the ticker fires and the goroutine is in its loop, an export cycle begins. -/
def MetricsTracker.tick (_t : MetricsTracker) (σ : Scheduler) : Scheduler :=
  if σ.tickerActive && σ.looping then { σ with cycles := σ.cycles + 1 } else σ

/-- The method `MetricsTracker.Stop`: it closes the three clients and calls
`cancel` when it is not nil. -/
def MetricsTracker.Stop (t : MetricsTracker) (σ : Scheduler) : Scheduler :=
  let σ := { σ with bigqueryClosed := true }
  let σ := { σ with containerClosed := true }
  let σ := { σ with monitoringClosed := true }
  match t.cancel with
  | some cancel => cancel σ
  | none => σ

/-- Resolution of a cluster succeeds: the cluster manager knows it and a
client for it can be constructed. -/
def Resolvable (w : World) (c : Cluster) : Prop :=
  ∃ v1Cluster k, GetCluster w c = .ok v1Cluster ∧
    NewK8sClient w { c with Cluster := some v1Cluster } = .ok k

/-- The groups name clusters with separate keys: two groups whose clusters
have the same key name the same cluster. -/
def KeysSeparate (dp : List TimeSeriesData) : Prop :=
  ∀ d ∈ dp, ∀ e ∈ dp, ∀ ld le,
    parseMetricsLabels d.LabelValues = .ok (.ok ld) →
    parseMetricsLabels e.LabelValues = .ok (.ok le) →
    (clusterOf ld).String = (clusterOf le).String → clusterOf ld = clusterOf le

/-- The loop of `queryUsages` without its accumulator: the records appended
for the groups, in order, and the client store at the end. -/
def groupsRun (w : World) (r : resourceType) :
    List TimeSeriesData → K8sClientStore → Except Panic (List UsageRecord × K8sClientStore)
  | [], s => .ok ([], s)
  | d :: rest, s =>
    match queryUsages.body w r s d with
    | .error p => .error p
    | .ok g =>
      match groupsRun w r rest g.store with
      | .error p => .error p
      | .ok (new, st) => .ok (g.record.toList ++ new, st)

/-! ## Vocabulary and examples for the records of a run -/

/-- On the store `t` the clusters of the groups get the handles they get on
the store `s`: for every group whose labels parse, `GetOrCreate` for its
cluster has the same result on both stores. -/
def SameHandles (w : World) (dp : List TimeSeriesData) (s t : K8sClientStore) : Prop :=
  ∀ e ∈ dp, ∀ le, parseMetricsLabels e.LabelValues = .ok (.ok le) →
    (t.GetOrCreate w (clusterOf le)).result = (s.GetOrCreate w (clusterOf le)).result

/-- A world with two control planes. The cluster manager knows the regional
cluster `a-prod` in `us-central1` (endpoint `10.0.0.1`) and the clusters
`prod` in `us-central1-a` and in `europe-west1` (endpoint `10.0.0.2`), all of
project `x`; behind the first endpoint there is only the pod `p1`, behind the
second only the pod `p2`. -/
def twoClusterWorld : World :=
  { clusterManagerGetCluster := fun name =>
      if name = "projects/x/locations/us-central1/clusters/a-prod"
      then .ok ⟨"a-prod", "10.0.0.1", "ca"⟩
      else if name = "projects/x/locations/us-central1-a/clusters/prod"
        ∨ name = "projects/x/locations/europe-west1/clusters/prod"
      then .ok ⟨"prod", "10.0.0.2", "ca"⟩
      else .error (.external 404)
    oauthTransport := fun _ => .ok 1
    newForConfig := fun host _ =>
      if host = "https://10.0.0.1" then .ok 1
      else if host = "https://10.0.0.2" then .ok 2
      else .error (.external 503)
    podsGet := fun client _ name =>
      if client = 1 ∧ name = "p1" then .ok ⟨some ⟨[("app", "web")]⟩, "n1"⟩
      else if client = 2 ∧ name = "p2" then .ok ⟨some ⟨[("app", "db")]⟩, "n2"⟩
      else .error (.external 404)
    nodesGet := fun _ name => .ok ⟨name, none, 4, 8⟩
    now := 0 }

/-- The labels of the group of pod `p1` in the regional cluster `a-prod`. -/
def regionalLabels : Labels :=
  { ProjectID := "x", Location := "us-central1", ClusterName := "a-prod",
    Namespace := "ns1", PodName := "p1", Container := "ctr" }

/-- The labels of the group of pod `p2` in the zonal cluster `prod`. -/
def zonalLabels : Labels :=
  { ProjectID := "x", Location := "us-central1-a", ClusterName := "prod",
    Namespace := "ns1", PodName := "p2", Container := "ctr" }

/-- The labels of the group of pod `p2` in the cluster `prod` of `europe-west1`. -/
def europeLabels : Labels :=
  { ProjectID := "x", Location := "europe-west1", ClusterName := "prod",
    Namespace := "ns1", PodName := "p2", Container := "ctr" }

/-- The group with the given labels and one sample of one minute. -/
def groupOf (labels : Labels) : TimeSeriesData :=
  { LabelValues :=
      [.stringValue labels.ProjectID, .stringValue labels.Location,
        .stringValue labels.ClusterName, .stringValue labels.Namespace,
        .stringValue labels.PodName, .stringValue labels.Container]
    PointData := [⟨[.doubleValue 1], ⟨0, 60000000000⟩⟩] }

/-- A group with six labels whose only sample carries no value. -/
def valuelessSeries : TimeSeriesData :=
  { LabelValues := exampleLabelValues, PointData := [⟨[], ⟨0, 60000000000⟩⟩] }

/-! # Theorems -/

/-! ## Slices -/

theorem index_cons_zero {α : Type} (a : α) (l : List α) : index (a :: l) 0 = .ok a := by
  simp [index]

theorem index_of_lt {α : Type} (l : List α) (i : Nat) (h : i < l.length) :
    index l i = .ok (l.get ⟨i, h⟩) := by
  unfold index
  rw [List.getElem?_eq_getElem h]
  rfl

theorem index_last {α : Type} (l : List α) (h : l ≠ []) :
    index l (l.length - 1) = .ok (l.getLast h) := by
  have hlen : l.length - 1 < l.length := by
    have := List.length_pos.mpr h
    omega
  rw [index_of_lt l _ hlen, List.getLast_eq_getElem]
  rfl

theorem index_head {α : Type} (l : List α) (h : l ≠ []) :
    index l 0 = .ok (l.head h) := by
  cases l with
  | nil => exact absurd rfl h
  | cons a t => simp [index]

/-! ## `calcUsage` -/

theorem calcUsage_loop_ok (pds : List PointData) (hval : ∀ pd ∈ pds, pd.Values ≠ [])
    (sum u : ℚ) :
    calcUsage.loop pds sum u =
      .ok (sum + (pds.map (fun pd => pd.value * pd.seconds)).sum,
           u + (pds.map PointData.value).sum) := by
  induction pds generalizing sum u with
  | nil => simp [calcUsage.loop]
  | cons pd rest ih =>
    have hpd : pd.Values ≠ [] := hval pd (List.mem_cons_self _ _)
    have hrest : ∀ q ∈ rest, q.Values ≠ [] := fun q hq => hval q (List.mem_cons_of_mem _ hq)
    obtain ⟨v, vs, hv⟩ := List.exists_cons_of_ne_nil hpd
    have hvalue : pd.value = v.GetDoubleValue := by simp [PointData.value, hv]
    unfold calcUsage.loop
    simp only [hv, index_cons_zero, bind, Except.bind]
    rw [ih hrest]
    simp only [List.map_cons, List.sum_cons, hvalue, PointData.seconds]
    congr 2 <;> ring

/-- The result of `calcUsage` on a non-empty window whose points all carry a value. -/
theorem calcUsage_ok (pds : List PointData) (hne : pds ≠ [])
    (hval : ∀ pd ∈ pds, pd.Values ≠ []) :
    calcUsage pds = .ok
      { StartTime := (pds.head hne).TimeInterval.StartTime
        EndTime := (pds.getLast hne).TimeInterval.EndTime
        Value := (pds.map (fun pd => pd.value * pd.seconds)).sum
        AvgUsage := (pds.map PointData.value).sum / (pds.length : ℚ) } := by
  unfold calcUsage
  simp only [calcUsage_loop_ok pds hval, index_head pds hne, index_last pds hne, bind,
    Except.bind, pure, Except.pure, zero_add]

theorem calcUsage_nil : calcUsage [] = .error (.indexOutOfRange 0 0) := rfl

/-- C1. For every non-empty list of samples `(start, stop, value)`, `calcUsage`
returns a `Usage` whose `StartTime` is the start of the first sample, whose
`EndTime` is the end of the last sample, whose `Value` is the sum over the
samples of `value * (stop - start)` in seconds and whose `AvgUsage` is the sum
of the values divided by the number of samples. -/
theorem calcUsage_spec (samples : List Sample) (hne : samples ≠ []) :
    calcUsage (samples.map Sample.toPointData) = .ok
      { StartTime := (samples.head hne).start
        EndTime := (samples.getLast hne).stop
        Value := (samples.map (fun s => s.value * s.seconds)).sum
        AvgUsage := (samples.map Sample.value).sum / (samples.length : ℚ) } := by
  have hne2 : samples.map Sample.toPointData ≠ [] := by simpa using hne
  have hval : ∀ pd ∈ samples.map Sample.toPointData, pd.Values ≠ [] := by
    intro pd hpd
    obtain ⟨s, _, rfl⟩ := List.mem_map.mp hpd
    simp [Sample.toPointData]
  rw [calcUsage_ok _ hne2 hval]
  have h1 : ((samples.map Sample.toPointData).head hne2).TimeInterval.StartTime
      = (samples.head hne).start := by
    cases samples with
    | nil => exact absurd rfl hne
    | cons a t => rfl
  have h2 : ((samples.map Sample.toPointData).getLast hne2).TimeInterval.EndTime
      = (samples.getLast hne).stop := by
    rw [List.getLast_map]
    rfl
  have h3 : (samples.map Sample.toPointData).map (fun pd => pd.value * pd.seconds)
      = samples.map (fun s => s.value * s.seconds) := by
    rw [List.map_map]
    apply List.map_congr_left
    intro s _
    simp [Sample.toPointData, PointData.value, PointData.seconds, Sample.seconds,
      TypedValue.GetDoubleValue, Time.Sub, Duration.Seconds]
  have h4 : (samples.map Sample.toPointData).map PointData.value
      = samples.map Sample.value := by
    rw [List.map_map]
    apply List.map_congr_left
    intro s _
    simp [Sample.toPointData, PointData.value, TypedValue.GetDoubleValue]
  rw [h1, h2, h3, h4, List.length_map]

/-- C1 at a window of two one-minute samples of values 1/2 and 3/2: the
integrated value is 120 and the mean is 1. -/
theorem calcUsage_spec_witness :
    calcUsage ([⟨0, 60000000000, 1 / 2⟩, ⟨60000000000, 120000000000, 3 / 2⟩].map
        Sample.toPointData) = .ok
      { StartTime := 0, EndTime := 120000000000, Value := 120, AvgUsage := 1 } := by
  rw [calcUsage_spec [⟨0, 60000000000, 1 / 2⟩, ⟨60000000000, 120000000000, 3 / 2⟩] (by simp)]
  norm_num [Sample.seconds]

/-! ## `parseMetricsLabels` -/

theorem parseMetricsLabels_of_length_ne (labels : List LabelValue) (h : labels.length ≠ 6) :
    parseMetricsLabels labels = .ok (.error (.parseLabelValues labels.length)) := by
  simp [parseMetricsLabels, h]

theorem parseMetricsLabels_six (a b c d e f : LabelValue) :
    parseMetricsLabels [a, b, c, d, e, f] = .ok (.ok
      { ProjectID := a.GetStringValue
        Location := b.GetStringValue
        ClusterName := c.GetStringValue
        Namespace := d.GetStringValue
        PodName := e.GetStringValue
        Container := f.GetStringValue }) := by
  simp [parseMetricsLabels, index, bind, Except.bind, pure, Except.pure]

theorem length_six {α : Type} (l : List α) (h : l.length = 6) :
    ∃ a b c d e f, l = [a, b, c, d, e, f] := by
  rcases l with _ | ⟨a, _ | ⟨b, _ | ⟨c, _ | ⟨d, _ | ⟨e, _ | ⟨f, _ | ⟨g, t⟩⟩⟩⟩⟩⟩⟩ <;>
    simp at h
  exact ⟨a, b, c, d, e, f, rfl⟩

theorem parseMetricsLabels_of_length_eq (labels : List LabelValue) (h : labels.length = 6) :
    ∃ l, parseMetricsLabels labels = .ok (.ok l) ∧
      labels.map LabelValue.GetStringValue =
        [l.ProjectID, l.Location, l.ClusterName, l.Namespace, l.PodName, l.Container] := by
  obtain ⟨a, b, c, d, e, f, rfl⟩ := length_six labels h
  exact ⟨_, parseMetricsLabels_six a b c d e f, rfl⟩

/-- C4. For every list of label values, `parseMetricsLabels` never panics on an
index; it returns an error if and only if the length of the list is not 6; and
when the length is 6 it returns `Labels` whose fields `ProjectID`, `Location`,
`ClusterName`, `Namespace`, `PodName`, `Container` are the string values at the
positions 0 to 5, in this order. -/
theorem parseMetricsLabels_spec (labels : List LabelValue) :
    (∃ r, parseMetricsLabels labels = .ok r) ∧
    ((∃ err, parseMetricsLabels labels = .ok (.error err)) ↔ labels.length ≠ 6) ∧
    (labels.length = 6 →
      ∃ l, parseMetricsLabels labels = .ok (.ok l) ∧
        labels.map LabelValue.GetStringValue =
          [l.ProjectID, l.Location, l.ClusterName, l.Namespace, l.PodName, l.Container]) := by
  by_cases h : labels.length = 6
  · obtain ⟨l, hl, hfields⟩ := parseMetricsLabels_of_length_eq labels h
    refine ⟨⟨_, hl⟩, ⟨?_, ?_⟩, fun _ => ⟨l, hl, hfields⟩⟩
    · rintro ⟨err, herr⟩
      rw [hl] at herr
      cases herr
    · intro hne
      exact absurd h hne
  · have herr := parseMetricsLabels_of_length_ne labels h
    exact ⟨⟨_, herr⟩, ⟨fun _ => h, fun _ => ⟨_, herr⟩⟩, fun h6 => absurd h6 h⟩

/-- C4 at a list of six values, the fourth of which is not a string. -/
theorem parseMetricsLabels_spec_witness :
    ∃ l, parseMetricsLabels
        [.stringValue "p", .stringValue "l", .stringValue "c", .int64Value 4,
          .stringValue "pod", .stringValue "ctr"] = .ok (.ok l) ∧
      ["p", "l", "c", "", "pod", "ctr"] =
        [l.ProjectID, l.Location, l.ClusterName, l.Namespace, l.PodName, l.Container] :=
  (parseMetricsLabels_spec
    [.stringValue "p", .stringValue "l", .stringValue "c", .int64Value 4,
      .stringValue "pod", .stringValue "ctr"]).2.2 rfl

/-! ## Go maps: reads after writes -/

theorem GoMap.lookupIn_setIn_self {β : Type} (k : String) (v : β) (l : List (String × β)) :
    GoMap.lookupIn k (GoMap.setIn k v l) = some v := by
  induction l with
  | nil => simp [GoMap.setIn, GoMap.lookupIn]
  | cons kv rest ih =>
    obtain ⟨k1, v1⟩ := kv
    by_cases h : k1 = k
    · simp [GoMap.setIn, GoMap.lookupIn, h]
    · simp [GoMap.setIn, GoMap.lookupIn, h, ih]

theorem GoMap.lookup_set_self {β : Type} (m : GoMap β) (k : String) (v : β) :
    (m.set k v).lookup k = some v :=
  GoMap.lookupIn_setIn_self k v m.entries

theorem GoMap.lookupIn_setIn_of_ne {β : Type} (k k2 : String) (v : β) (hne : k2 ≠ k)
    (l : List (String × β)) :
    GoMap.lookupIn k2 (GoMap.setIn k v l) = GoMap.lookupIn k2 l := by
  induction l with
  | nil => simp [GoMap.setIn, GoMap.lookupIn, hne.symm]
  | cons kv rest ih =>
    obtain ⟨k1, v1⟩ := kv
    by_cases h : k1 = k
    · subst h
      simp [GoMap.setIn, GoMap.lookupIn, hne.symm]
    · by_cases h2 : k1 = k2
      · subst h2
        simp [GoMap.setIn, GoMap.lookupIn, h]
      · simp [GoMap.setIn, GoMap.lookupIn, h, h2, ih]

theorem GoMap.lookup_set_of_ne {β : Type} (m : GoMap β) (k k2 : String) (v : β)
    (hne : k2 ≠ k) : (m.set k v).lookup k2 = m.lookup k2 :=
  GoMap.lookupIn_setIn_of_ne k k2 v hne m.entries

/-! ## `K8sClientStore.GetOrCreate` -/

theorem Cluster.String_eq_of_sameIdentity (c d : Consumption.Cluster) (h : c.sameIdentity d) :
    c.String = d.String := by
  obtain ⟨h1, h2, h3⟩ := h
  simp [Cluster.String, h1, h2, h3]

theorem GetOrCreate_cached (w : World) (s : K8sClientStore) (cluster : Cluster) (c : K8sClient)
    (h : s.clientmap.lookup cluster.String = some c) :
    (s.GetOrCreate w cluster).result = .ok c ∧ (s.GetOrCreate w cluster).store = s ∧
      (s.GetOrCreate w cluster).calls = [] := by
  simp [K8sClientStore.GetOrCreate, h]

/-- After a successful call the handle is in the map under the key of the cluster. -/
theorem GetOrCreate_ok_lookup (w : World) (s : K8sClientStore) (cluster : Cluster)
    (c : K8sClient) (h : (s.GetOrCreate w cluster).result = .ok c) :
    (s.GetOrCreate w cluster).store.clientmap.lookup cluster.String = some c := by
  unfold K8sClientStore.GetOrCreate at h ⊢
  cases hl : s.clientmap.lookup cluster.String with
  | some c0 =>
    simp only [hl] at h ⊢
    cases h
    rfl
  | none =>
    simp only [hl] at h ⊢
    cases hg : GetCluster w cluster with
    | error err => simp [hg] at h
    | ok v1 =>
      simp only [hg] at h ⊢
      cases hn : NewK8sClient w { cluster with Cluster := some v1 } with
      | error err => simp [hn] at h
      | ok c1 =>
        simp only [hn] at h ⊢
        cases h
        exact GoMap.lookup_set_self _ _ _

/-- The calls of a successful call for a key that is not in the map. -/
theorem GetOrCreate_ok_calls (w : World) (s : K8sClientStore) (cluster : Cluster)
    (c : K8sClient) (h : (s.GetOrCreate w cluster).result = .ok c)
    (hun : s.clientmap.lookup cluster.String = none) :
    (s.GetOrCreate w cluster).calls =
      [.GetCluster cluster.String, .NewK8sClient cluster.String] := by
  unfold K8sClientStore.GetOrCreate at h ⊢
  simp only [hun] at h ⊢
  cases hg : GetCluster w cluster with
  | error err => simp [hg] at h
  | ok v1 =>
    simp only [hg] at h ⊢
    cases hn : NewK8sClient w { cluster with Cluster := some v1 } with
    | error err => simp [hn] at h
    | ok c1 => rfl

/-- C9. For every cluster identity, if a first call of `GetOrCreate` succeeds
with a handle, then a second call for the same identity (on the store the first
call left, whatever the collaborators would answer now) returns the same
handle, makes no call of `GetCluster` or `NewK8sClient` and leaves the store
as it is; when the identity was not in the map before the first call, the two
calls together make exactly one `GetCluster` and one `NewK8sClient` call. -/
theorem GetOrCreate_twice (w w2 : World) (s : K8sClientStore) (cluster cluster2 : Cluster)
    (c : K8sClient) (hid : cluster2.sameIdentity cluster)
    (h : (s.GetOrCreate w cluster).result = .ok c) :
    ((s.GetOrCreate w cluster).store.GetOrCreate w2 cluster2).result = .ok c ∧
    ((s.GetOrCreate w cluster).store.GetOrCreate w2 cluster2).calls = [] ∧
    ((s.GetOrCreate w cluster).store.GetOrCreate w2 cluster2).store =
      (s.GetOrCreate w cluster).store ∧
    (s.clientmap.lookup cluster.String = none →
      (s.GetOrCreate w cluster).calls ++
          ((s.GetOrCreate w cluster).store.GetOrCreate w2 cluster2).calls =
        [.GetCluster cluster.String, .NewK8sClient cluster.String]) := by
  have hkey : cluster2.String = cluster.String := Cluster.String_eq_of_sameIdentity _ _ hid
  have hl := GetOrCreate_ok_lookup w s cluster c h
  rw [← hkey] at hl
  obtain ⟨h1, h2, h3⟩ := GetOrCreate_cached w2 _ cluster2 c hl
  refine ⟨h1, h3, h2, fun hun => ?_⟩
  rw [h3, List.append_nil]
  exact GetOrCreate_ok_calls w s cluster c h hun

/-- C9 at the empty store: the first call resolves `exampleCluster` in
`exampleWorld`, the second is answered from the map although every collaborator
is down by then. -/
theorem GetOrCreate_twice_witness :
    ((NewK8sClientStore.GetOrCreate exampleWorld exampleCluster).store.GetOrCreate
        downWorld exampleCluster).result = .ok exampleClient ∧
    ((NewK8sClientStore.GetOrCreate exampleWorld exampleCluster).store.GetOrCreate
        downWorld exampleCluster).calls = [] ∧
    ((NewK8sClientStore.GetOrCreate exampleWorld exampleCluster).store.GetOrCreate
        downWorld exampleCluster).store =
      (NewK8sClientStore.GetOrCreate exampleWorld exampleCluster).store ∧
    (NewK8sClientStore.clientmap.lookup exampleCluster.String = none →
      (NewK8sClientStore.GetOrCreate exampleWorld exampleCluster).calls ++
          ((NewK8sClientStore.GetOrCreate exampleWorld exampleCluster).store.GetOrCreate
            downWorld exampleCluster).calls =
        [.GetCluster exampleCluster.String, .NewK8sClient exampleCluster.String]) :=
  GetOrCreate_twice exampleWorld downWorld NewK8sClientStore exampleCluster exampleCluster
    exampleClient ⟨rfl, rfl, rfl⟩ (by rfl)

/-- C10. For every cluster identity that is not in the map, if `GetCluster`
fails, or `GetCluster` succeeds and `NewK8sClient` fails, then `GetOrCreate`
returns that error and leaves the store exactly as it was, so that the next
call for the same identity (whatever the collaborators answer then) starts with
a `GetCluster` call again. -/
theorem GetOrCreate_failure (w : World) (s : K8sClientStore) (cluster : Cluster) (err : GoError)
    (hun : s.clientmap.lookup cluster.String = none)
    (hfail : GetCluster w cluster = .error err ∨
      ∃ v1Cluster, GetCluster w cluster = .ok v1Cluster ∧
        NewK8sClient w { cluster with Cluster := some v1Cluster } = .error err) :
    (s.GetOrCreate w cluster).result = .error err ∧
    (s.GetOrCreate w cluster).store = s ∧
    ∀ (w2 : World) (cluster2 : Cluster), cluster2.sameIdentity cluster →
      ((s.GetOrCreate w cluster).store.GetOrCreate w2 cluster2).calls.head? =
        some (.GetCluster cluster.String) := by
  have hstore : (s.GetOrCreate w cluster).result = .error err ∧
      (s.GetOrCreate w cluster).store = s := by
    unfold K8sClientStore.GetOrCreate
    simp only [hun]
    rcases hfail with hg | ⟨v1, hg, hn⟩
    · simp [hg]
    · simp [hg, hn]
  refine ⟨hstore.1, hstore.2, fun w2 cluster2 hid => ?_⟩
  have hkey : cluster2.String = cluster.String := Cluster.String_eq_of_sameIdentity _ _ hid
  rw [hstore.2]
  unfold K8sClientStore.GetOrCreate
  simp only [hkey, hun]
  cases GetCluster w2 cluster2 with
  | error e => rfl
  | ok v1 =>
    simp only []
    cases NewK8sClient w2 { cluster2 with Cluster := some v1 } <;> rfl

/-- C10 at the empty store when authentication fails: the error of
`auth.OAuthTransport` comes back, nothing is cached and a later call starts
with `GetCluster` again. -/
theorem GetOrCreate_failure_witness :
    (NewK8sClientStore.GetOrCreate noAuthWorld exampleCluster).result = .error (.external 2) ∧
    (NewK8sClientStore.GetOrCreate noAuthWorld exampleCluster).store = NewK8sClientStore ∧
    ∀ (w2 : World) (cluster2 : Cluster), cluster2.sameIdentity exampleCluster →
      ((NewK8sClientStore.GetOrCreate noAuthWorld exampleCluster).store.GetOrCreate
        w2 cluster2).calls.head? = some (.GetCluster exampleCluster.String) :=
  GetOrCreate_failure noAuthWorld NewK8sClientStore exampleCluster (.external 2) (by decide)
    (Or.inr ⟨⟨"c1", "10.0.0.1", "ca"⟩, rfl, rfl⟩)

/-! ## `QueryTimeSeries` -/

theorem startLE_iff (a b : PointData) :
    startLE a b ↔ a.TimeInterval.StartTime ≤ b.TimeInterval.StartTime := by
  simp [startLE, startBefore]

theorem startLE_total : IsTotal PointData startLE :=
  ⟨fun a b => by
    rw [startLE_iff, startLE_iff]
    exact le_total _ _⟩

theorem startLE_trans : IsTrans PointData startLE :=
  ⟨fun a b c hab hbc => by
    rw [startLE_iff] at *
    exact le_trans hab hbc⟩

theorem sortSlice_startBefore_eq (l : List PointData) :
    sortSlice startBefore l = l.insertionSort startLE := rfl

theorem sortSlice_perm (l : List PointData) : (sortSlice startBefore l).Perm l := by
  rw [sortSlice_startBefore_eq]
  exact List.perm_insertionSort _ l

theorem sortSlice_sorted (l : List PointData) :
    (sortSlice startBefore l).Pairwise
      (fun a b => a.TimeInterval.StartTime ≤ b.TimeInterval.StartTime) := by
  rw [sortSlice_startBefore_eq]
  haveI := startLE_total
  haveI := startLE_trans
  have h : (l.insertionSort startLE).Sorted startLE := List.sorted_insertionSort _ l
  exact List.Pairwise.imp (fun hab => (startLE_iff _ _).mp hab) h

theorem normalizePoint_start (pd : PointData) :
    (normalizePoint pd).TimeInterval.StartTime = pd.TimeInterval.StartTime := by
  by_cases h : pd.TimeInterval.StartTime = pd.TimeInterval.EndTime <;> simp [normalizePoint, h]

theorem normalizePoint_values (pd : PointData) : (normalizePoint pd).Values = pd.Values := by
  by_cases h : pd.TimeInterval.StartTime = pd.TimeInterval.EndTime <;> simp [normalizePoint, h]

theorem normalizePoint_end (pd : PointData) :
    (normalizePoint pd).TimeInterval.EndTime =
      (if pd.TimeInterval.StartTime = pd.TimeInterval.EndTime
        then pd.TimeInterval.StartTime + 60 * 1000000000
        else pd.TimeInterval.EndTime) := by
  unfold normalizePoint
  by_cases h : pd.TimeInterval.StartTime = pd.TimeInterval.EndTime
  · simp [h, Time.Add, ParseDuration, DefaultResolution]
  · simp [h]

theorem normalizePoint_of_ne (pd : PointData)
    (h : pd.TimeInterval.StartTime ≠ pd.TimeInterval.EndTime) : normalizePoint pd = pd := by
  simp [normalizePoint, h]

theorem normalizePoint_width (pd : PointData) :
    (normalizePoint pd).TimeInterval.StartTime ≠ (normalizePoint pd).TimeInterval.EndTime := by
  rw [normalizePoint_start, normalizePoint_end]
  by_cases h : pd.TimeInterval.StartTime = pd.TimeInterval.EndTime
  · simp [h]
  · simp [h]

theorem normalizedFrom_normalizePoint (pd : PointData) : normalizedFrom pd (normalizePoint pd) :=
  ⟨normalizePoint_values pd, normalizePoint_start pd, normalizePoint_end pd⟩

theorem forall₂_normalizedFrom (l : List PointData) :
    List.Forall₂ normalizedFrom l (l.map normalizePoint) := by
  induction l with
  | nil => exact List.Forall₂.nil
  | cons pd rest ih => exact List.Forall₂.cons (normalizedFrom_normalizePoint pd) ih

/-- Every series in the returned slice was prepared from a response of the backend. -/
theorem QueryTimeSeries_loop_mem (backend : List (Except GoError TimeSeriesData))
    (data : List TimeSeriesData) (series : TimeSeriesData)
    (h : series ∈ (QueryTimeSeries.loop backend data).1) :
    series ∈ data ∨ ∃ resp, Except.ok resp ∈ backend ∧ series = prepareSeries resp := by
  induction backend generalizing data with
  | nil => exact Or.inl h
  | cons item rest ih =>
    cases item with
    | error err => exact Or.inl h
    | ok resp =>
      rcases ih (data ++ [prepareSeries resp]) h with hmem | ⟨r, hr, hs⟩
      · rcases List.mem_append.mp hmem with hd | hnew
        · exact Or.inl hd
        · exact Or.inr ⟨resp, List.mem_cons_self _ _, by simpa using hnew⟩
      · exact Or.inr ⟨r, List.mem_cons_of_mem _ hr, hs⟩

theorem QueryTimeSeries_mem (backend : List (Except GoError TimeSeriesData))
    (series : TimeSeriesData) (h : series ∈ (QueryTimeSeries backend).1) :
    ∃ resp, Except.ok resp ∈ backend ∧ series = prepareSeries resp := by
  rcases QueryTimeSeries_loop_mem backend [] series h with hnil | hres
  · cases hnil
  · exact hres

/-- C7. For every series returned by `QueryTimeSeries` there is a response of
the backend with the same labels whose samples, taken in some order, correspond
one to one to the samples of the series: each returned sample has the values
and the start of the received one, ends 60 seconds after its start when the
received sample had start equal to end, and has the received end otherwise; so
no returned sample has a zero-width interval. -/
theorem QueryTimeSeries_normalizes (backend : List (Except GoError TimeSeriesData))
    (series : TimeSeriesData) (h : series ∈ (QueryTimeSeries backend).1) :
    ∃ resp received, Except.ok resp ∈ backend ∧ series.LabelValues = resp.LabelValues ∧
      received.Perm resp.PointData ∧
      List.Forall₂ normalizedFrom received series.PointData ∧
      ∀ pd ∈ series.PointData, pd.TimeInterval.StartTime ≠ pd.TimeInterval.EndTime := by
  obtain ⟨resp, hresp, rfl⟩ := QueryTimeSeries_mem backend series h
  refine ⟨resp, sortSlice startBefore resp.PointData, hresp, rfl, sortSlice_perm _,
    forall₂_normalizedFrom _, ?_⟩
  intro pd hpd
  obtain ⟨q, _, rfl⟩ := List.mem_map.mp hpd
  exact normalizePoint_width q

/-- C8. For every series returned by `QueryTimeSeries` there is a response of
the backend whose samples, in a permuted order and each after the rewrite of
its interval end, are the samples of the series; the samples of the series are
ordered by non-decreasing start time; and when no received sample has a
zero-width interval the samples of the series are a permutation of the
received ones as they are. -/
theorem QueryTimeSeries_sorted (backend : List (Except GoError TimeSeriesData))
    (series : TimeSeriesData) (h : series ∈ (QueryTimeSeries backend).1) :
    ∃ resp, Except.ok resp ∈ backend ∧
      (∃ received : List PointData, received.Perm resp.PointData ∧
        series.PointData = received.map normalizePoint) ∧
      series.PointData.Pairwise
        (fun a b => a.TimeInterval.StartTime ≤ b.TimeInterval.StartTime) ∧
      ((∀ pd ∈ resp.PointData, pd.TimeInterval.StartTime ≠ pd.TimeInterval.EndTime) →
        series.PointData.Perm resp.PointData) := by
  obtain ⟨resp, hresp, rfl⟩ := QueryTimeSeries_mem backend series h
  refine ⟨resp, hresp, ⟨sortSlice startBefore resp.PointData, sortSlice_perm _, rfl⟩, ?_, ?_⟩
  · show ((sortSlice startBefore resp.PointData).map normalizePoint).Pairwise _
    rw [List.pairwise_map]
    refine List.Pairwise.imp ?_ (sortSlice_sorted resp.PointData)
    intro a b hab
    rw [normalizePoint_start, normalizePoint_start]
    exact hab
  · intro hwidth
    show ((sortSlice startBefore resp.PointData).map normalizePoint).Perm _
    have hid : (sortSlice startBefore resp.PointData).map normalizePoint
        = sortSlice startBefore resp.PointData := by
      conv_rhs => rw [← List.map_id (sortSlice startBefore resp.PointData)]
      apply List.map_congr_left
      intro pd hpd
      exact normalizePoint_of_ne pd (hwidth pd ((sortSlice_perm _).mem_iff.mp hpd))
    rw [hid]
    exact sortSlice_perm _

/-! ## `queryUsages`: one group -/

theorem queryUsages_body_malformed (w : World) (r : resourceType) (s : K8sClientStore)
    (d : TimeSeriesData) (h : d.LabelValues.length ≠ 6) :
    queryUsages.body w r s d = .ok
      { record := none
        logged := some (.parseLabelValues d.LabelValues.length)
        store := s
        calls := [] } := by
  unfold queryUsages.body
  rw [parseMetricsLabels_of_length_ne _ h]
  rfl

theorem queryUsages_body_panic (w : World) (r : resourceType) (s : K8sClientStore)
    (d : TimeSeriesData) (labels : Labels) (p : Panic)
    (hl : parseMetricsLabels d.LabelValues = .ok (.ok labels))
    (hu : calcUsage d.PointData = .error p) :
    queryUsages.body w r s d = .error p := by
  unfold queryUsages.body
  rw [hl]
  simp only [bind, Except.bind, hu]

/-- The iteration for a group whose every step succeeds. -/
theorem queryUsages_body_resolved (w : World) (r : resourceType) (s : K8sClientStore)
    (d : TimeSeriesData) (labels : Labels) (usage : Usage) (k8sClient : K8sClient)
    (pod : V1Pod) (node : NodeCache)
    (hl : parseMetricsLabels d.LabelValues = .ok (.ok labels))
    (hu : calcUsage d.PointData = .ok usage)
    (hc : (s.GetOrCreate w (clusterOf labels)).result = .ok k8sClient)
    (hp : k8sClient.GetPod w labels.Namespace labels.PodName = .ok pod)
    (hn : k8sClient.GetNode w pod.NodeName = .ok node) :
    queryUsages.body w r s d = .ok
      { record := some (applyResourceType r usage node
          (newUsageRecord labels usage (podLabelsOf labels pod)))
        logged := none
        store := (s.GetOrCreate w (clusterOf labels)).store
        calls := (s.GetOrCreate w (clusterOf labels)).calls } := by
  unfold queryUsages.body
  rw [hl]
  simp only [bind, Except.bind, hu]
  unfold clusterOf at hc
  simp only [hc, hp, hn]
  rfl

/-- C6. For every group whose labels parse, whose usage is computed and whose
cluster handle, pod and node are resolved, the loop body of `queryUsages`
appends a record with `Usage.Amount` equal to `usage.Value`; for resource type
CPU the record has `ResourceName` "cpu", `Usage.Unit` "seconds",
`CloudResourceSize = node.CPUSize` and `Fraction` the float quotient
`usage.AvgUsage / node.CPUSize`; for resource type memory it has `ResourceName`
"memory", `Usage.Unit` "byte-seconds", `CloudResourceSize = node.MemSize` and
`Fraction` the float quotient `usage.AvgUsage / node.MemSize`. -/
theorem queryUsages_record_fields (w : World) (r : resourceType) (s : K8sClientStore)
    (d : TimeSeriesData) (labels : Labels) (usage : Usage) (k8sClient : K8sClient)
    (pod : V1Pod) (node : NodeCache)
    (hl : parseMetricsLabels d.LabelValues = .ok (.ok labels))
    (hu : calcUsage d.PointData = .ok usage)
    (hc : (s.GetOrCreate w (clusterOf labels)).result = .ok k8sClient)
    (hp : k8sClient.GetPod w labels.Namespace labels.PodName = .ok pod)
    (hn : k8sClient.GetNode w pod.NodeName = .ok node) :
    ∃ g ur, queryUsages.body w r s d = .ok g ∧ g.record = some ur ∧
      ur.Usage.Amount = usage.Value ∧
      (r = 0 →
        ur.ResourceName = "cpu" ∧ ur.Usage.Unit = "seconds" ∧
        ur.CloudResourceSize = node.CPUSize ∧
        ur.Fraction = F64.div usage.AvgUsage (node.CPUSize : ℚ) ∧
        (node.CPUSize ≠ 0 → ur.Fraction = .finite (usage.AvgUsage / (node.CPUSize : ℚ)))) ∧
      (r = 1 →
        ur.ResourceName = "memory" ∧ ur.Usage.Unit = "byte-seconds" ∧
        ur.CloudResourceSize = node.MemSize ∧
        ur.Fraction = F64.div usage.AvgUsage (node.MemSize : ℚ) ∧
        (node.MemSize ≠ 0 → ur.Fraction = .finite (usage.AvgUsage / (node.MemSize : ℚ)))) := by
  refine ⟨_, _, queryUsages_body_resolved w r s d labels usage k8sClient pod node hl hu hc hp hn,
    rfl, ?_, ?_, ?_⟩
  · unfold applyResourceType
    split
    · rfl
    · split <;> rfl
  · intro hr
    subst hr
    refine ⟨rfl, rfl, rfl, rfl, fun hne => ?_⟩
    have hq : (node.CPUSize : ℚ) ≠ 0 := by exact_mod_cast hne
    simp [applyResourceType, typeCPU, F64.div, hq]
  · intro hr
    subst hr
    refine ⟨rfl, rfl, rfl, rfl, fun hne => ?_⟩
    have hq : (node.MemSize : ℚ) ≠ 0 := by exact_mod_cast hne
    simp [applyResourceType, typeCPU, typeMem, F64.div, hq]

/-! ## `queryUsages`: the whole loop -/

theorem GoMap.mem_setIn_self {β : Type} (k : String) (v : β) (l : List (String × β)) :
    (k, v) ∈ GoMap.setIn k v l := by
  induction l with
  | nil => simp [GoMap.setIn]
  | cons kv rest ih =>
    obtain ⟨k1, v1⟩ := kv
    by_cases h : k1 = k
    · simp [GoMap.setIn, h]
    · simp only [GoMap.setIn, h, if_false]
      exact List.mem_cons_of_mem _ ih

theorem GoMap.mem_setIn_of_ne {β : Type} (k k2 : String) (v v2 : β) (hne : k2 ≠ k)
    (l : List (String × β)) (h : (k2, v2) ∈ l) : (k2, v2) ∈ GoMap.setIn k v l := by
  induction l with
  | nil => cases h
  | cons kv rest ih =>
    obtain ⟨k1, v1⟩ := kv
    by_cases h1 : k1 = k
    · subst h1
      simp only [GoMap.setIn, if_true]
      rcases List.mem_cons.mp h with heq | hrest
      · exact absurd (congrArg Prod.fst heq) hne
      · exact List.mem_cons_of_mem _ hrest
    · simp only [GoMap.setIn, h1, if_false]
      rcases List.mem_cons.mp h with heq | hrest
      · rw [heq]
        exact List.mem_cons_self _ _
      · exact List.mem_cons_of_mem _ (ih hrest)

theorem podLabelsOf_mem (labels : Labels) (pod : V1Pod) :
    ({ Key := "pod-name", Value := labels.PodName } : Label) ∈
        ToLabelSlice (podLabelsOf labels pod) ∧
    ({ Key := "container-name", Value := labels.Container } : Label) ∈
        ToLabelSlice (podLabelsOf labels pod) := by
  unfold ToLabelSlice podLabelsOf GoMap.set
  constructor
  · refine List.mem_map.mpr ⟨("pod-name", labels.PodName), ?_, rfl⟩
    exact GoMap.mem_setIn_of_ne _ _ _ _ (by decide) _ (GoMap.mem_setIn_self _ _ _)
  · refine List.mem_map.mpr ⟨("container-name", labels.Container), ?_, rfl⟩
    exact GoMap.mem_setIn_self _ _ _

theorem applyResourceType_keeps (r : resourceType) (usage : Usage) (node : NodeCache)
    (ur : UsageRecord) :
    (applyResourceType r usage node ur).Project = ur.Project ∧
    (applyResourceType r usage node ur).ClusterLocation = ur.ClusterLocation ∧
    (applyResourceType r usage node ur).ClusterName = ur.ClusterName ∧
    (applyResourceType r usage node ur).Namespace = ur.Namespace ∧
    (applyResourceType r usage node ur).StartTime = ur.StartTime ∧
    (applyResourceType r usage node ur).EndTime = ur.EndTime ∧
    (applyResourceType r usage node ur).Usage.Amount = ur.Usage.Amount ∧
    (applyResourceType r usage node ur).Labels = ur.Labels := by
  unfold applyResourceType
  split
  · exact ⟨rfl, rfl, rfl, rfl, rfl, rfl, rfl, rfl⟩
  · split <;> exact ⟨rfl, rfl, rfl, rfl, rfl, rfl, rfl, rfl⟩

/-! ## The example groups -/

theorem QueryTimeSeries_receivedSeries :
    (QueryTimeSeries [.ok receivedSeries]).1 = [returnedSeries] := by rfl

theorem calcUsage_returnedSeries : calcUsage returnedSeries.PointData = .ok exampleUsage := by
  rw [calcUsage_ok _ (by simp [returnedSeries]) (by simp [returnedSeries])]
  norm_num [returnedSeries, exampleUsage, PointData.value, PointData.seconds, Time.Sub,
    Duration.Seconds, TypedValue.GetDoubleValue]

theorem parseMetricsLabels_returnedSeries :
    parseMetricsLabels returnedSeries.LabelValues = .ok (.ok exampleLabels) := rfl

theorem GetOrCreate_exampleWorld :
    (NewK8sClientStore.GetOrCreate exampleWorld (clusterOf exampleLabels)).result
      = .ok exampleClient := rfl

theorem GetPod_exampleWorld :
    exampleClient.GetPod exampleWorld exampleLabels.Namespace exampleLabels.PodName
      = .ok examplePod := rfl

theorem GetNode_exampleWorld :
    exampleClient.GetNode exampleWorld examplePod.NodeName = .ok exampleNode := rfl

/-- C6 at the group `returnedSeries`, resource type CPU, on a node of 4 cores:
the amount is 90 core seconds and the fraction is (1/2)/4. -/
theorem queryUsages_record_fields_witness :
    ∃ g ur, queryUsages.body exampleWorld 0 NewK8sClientStore returnedSeries = .ok g ∧
      g.record = some ur ∧
      ur.Usage.Amount = exampleUsage.Value ∧
      ((0 : resourceType) = 0 →
        ur.ResourceName = "cpu" ∧ ur.Usage.Unit = "seconds" ∧
        ur.CloudResourceSize = exampleNode.CPUSize ∧
        ur.Fraction = F64.div exampleUsage.AvgUsage (exampleNode.CPUSize : ℚ) ∧
        (exampleNode.CPUSize ≠ 0 →
          ur.Fraction = .finite (exampleUsage.AvgUsage / (exampleNode.CPUSize : ℚ)))) ∧
      ((0 : resourceType) = 1 →
        ur.ResourceName = "memory" ∧ ur.Usage.Unit = "byte-seconds" ∧
        ur.CloudResourceSize = exampleNode.MemSize ∧
        ur.Fraction = F64.div exampleUsage.AvgUsage (exampleNode.MemSize : ℚ) ∧
        (exampleNode.MemSize ≠ 0 →
          ur.Fraction = .finite (exampleUsage.AvgUsage / (exampleNode.MemSize : ℚ)))) :=
  queryUsages_record_fields exampleWorld 0 NewK8sClientStore returnedSeries exampleLabels
    exampleUsage exampleClient examplePod exampleNode parseMetricsLabels_returnedSeries
    calcUsage_returnedSeries GetOrCreate_exampleWorld GetPod_exampleWorld GetNode_exampleWorld

/-- C7 at a backend that sends `receivedSeries`: the sample with interval
`[0, 0]` comes back with interval `[0, 60 s]`. -/
theorem QueryTimeSeries_normalizes_witness :
    ∃ resp received, Except.ok resp ∈ [(Except.ok receivedSeries : Except GoError _)] ∧
      returnedSeries.LabelValues = resp.LabelValues ∧
      received.Perm resp.PointData ∧
      List.Forall₂ normalizedFrom received returnedSeries.PointData ∧
      ∀ pd ∈ returnedSeries.PointData, pd.TimeInterval.StartTime ≠ pd.TimeInterval.EndTime :=
  QueryTimeSeries_normalizes [.ok receivedSeries] returnedSeries
    (by rw [QueryTimeSeries_receivedSeries]; exact List.mem_singleton.mpr rfl)

/-- C8 at a backend that sends `receivedSeries` and then fails: the series in
the returned slice is sorted by start time. -/
theorem QueryTimeSeries_sorted_witness :
    ∃ resp, Except.ok resp ∈
        [(Except.ok receivedSeries : Except GoError _), .error (.external 9)] ∧
      (∃ received : List PointData, received.Perm resp.PointData ∧
        returnedSeries.PointData = received.map normalizePoint) ∧
      returnedSeries.PointData.Pairwise
        (fun a b => a.TimeInterval.StartTime ≤ b.TimeInterval.StartTime) ∧
      ((∀ pd ∈ resp.PointData, pd.TimeInterval.StartTime ≠ pd.TimeInterval.EndTime) →
        returnedSeries.PointData.Perm resp.PointData) :=
  QueryTimeSeries_sorted [.ok receivedSeries, .error (.external 9)] returnedSeries
    (by
      have h : (QueryTimeSeries [.ok receivedSeries, .error (.external 9)]).1
          = [returnedSeries] := by rfl
      rw [h]
      exact List.mem_singleton.mpr rfl)

/-! ## `queryUsages`: zero capacity and empty windows -/

theorem applyResourceType_infiniteRecord :
    applyResourceType 1 exampleUsage exampleNode
      (newUsageRecord exampleLabels exampleUsage (podLabelsOf exampleLabels examplePod))
      = infiniteRecord := by
  have hlabels : ToLabelSlice (podLabelsOf exampleLabels examplePod)
      = [⟨"app", "web"⟩, ⟨"pod-name", "p1"⟩, ⟨"container-name", "ctr"⟩] := by decide
  norm_num [applyResourceType, typeCPU, typeMem, F64.div, exampleNode, exampleUsage,
    newUsageRecord, infiniteRecord, hlabels, ResourceMemory, UsageUnitByteSeconds]
  exact ⟨rfl, rfl, rfl, rfl⟩

theorem queryUsages_body_returnedSeries_mem :
    queryUsages.body exampleWorld 1 NewK8sClientStore returnedSeries = .ok
      { record := some infiniteRecord
        logged := none
        store := (NewK8sClientStore.GetOrCreate exampleWorld (clusterOf exampleLabels)).store
        calls := (NewK8sClientStore.GetOrCreate exampleWorld (clusterOf exampleLabels)).calls } := by
  rw [queryUsages_body_resolved exampleWorld 1 NewK8sClientStore returnedSeries
    exampleLabels exampleUsage exampleClient examplePod exampleNode
    parseMetricsLabels_returnedSeries calcUsage_returnedSeries GetOrCreate_exampleWorld
    GetPod_exampleWorld GetNode_exampleWorld, applyResourceType_infiniteRecord]

/-- The claim C2 fails: for the group `returnedSeries` on a node that reports
a memory capacity of zero, the loop body of `queryUsages` logs no error and
appends a record with `CloudResourceSize` 0 and an infinite `Fraction`, and
`queryUsages` returns that record. -/
theorem queryUsages_zero_capacity_counterexample :
    exampleClient.GetNode exampleWorld examplePod.NodeName = .ok exampleNode ∧
    exampleNode.MemSize = 0 ∧
    (queryUsages.body exampleWorld 1 NewK8sClientStore returnedSeries).map
        (fun g => (g.logged, g.record)) = .ok (none, some infiniteRecord) ∧
    (queryUsages exampleWorld [.ok receivedSeries] NewK8sClientStore 1).map
        (fun res => res.urs) = .ok [infiniteRecord] ∧
    infiniteRecord.Fraction = .posInf ∧ infiniteRecord.Fraction.isFinite = false := by
  refine ⟨rfl, rfl, ?_, ?_, rfl, rfl⟩
  · rw [queryUsages_body_returnedSeries_mem]
    rfl
  · have hq : QueryTimeSeries [.ok receivedSeries] = ([returnedSeries], none) := by rfl
    unfold queryUsages
    rw [hq]
    simp only [queryUsages.loop, queryUsages_body_returnedSeries_mem, bind, Except.bind]
    rfl

/-- C2, as the code has it. For every group whose labels parse, whose usage
is computed and whose cluster handle, pod and node are resolved, if the node
reports a capacity of zero for the resource type being attributed, the loop
body of `queryUsages` logs no error and appends the record of the group, with
`CloudResourceSize` 0 and with `Fraction` the float quotient of `AvgUsage` by
zero: positive infinity, negative infinity or NaN as `AvgUsage` is positive,
negative or zero, and so never a finite number. -/
theorem queryUsages_zero_capacity (w : World) (r : resourceType) (s : K8sClientStore)
    (d : TimeSeriesData) (labels : Labels) (usage : Usage) (k8sClient : K8sClient)
    (pod : V1Pod) (node : NodeCache)
    (hl : parseMetricsLabels d.LabelValues = .ok (.ok labels))
    (hu : calcUsage d.PointData = .ok usage)
    (hc : (s.GetOrCreate w (clusterOf labels)).result = .ok k8sClient)
    (hp : k8sClient.GetPod w labels.Namespace labels.PodName = .ok pod)
    (hn : k8sClient.GetNode w pod.NodeName = .ok node)
    (hzero : (r = 0 ∧ node.CPUSize = 0) ∨ (r = 1 ∧ node.MemSize = 0)) :
    ∃ g ur, queryUsages.body w r s d = .ok g ∧ g.logged = none ∧ g.record = some ur ∧
      ur.CloudResourceSize = 0 ∧
      ur.Fraction =
        (if 0 < usage.AvgUsage then F64.posInf
          else if usage.AvgUsage < 0 then F64.negInf else F64.nan) ∧
      ur.Fraction.isFinite = false := by
  refine ⟨_, _, queryUsages_body_resolved w r s d labels usage k8sClient pod node hl hu hc hp hn,
    rfl, rfl, ?_⟩
  have hdiv : F64.div usage.AvgUsage 0 =
      (if 0 < usage.AvgUsage then F64.posInf
        else if usage.AvgUsage < 0 then F64.negInf else F64.nan) := by
    simp [F64.div]
  have hfin : (F64.div usage.AvgUsage 0).isFinite = false := by
    rw [hdiv]
    split
    · rfl
    · split <;> rfl
  rcases hzero with ⟨hr, hsize⟩ | ⟨hr, hsize⟩
  · subst hr
    have happ : (applyResourceType 0 usage node
        (newUsageRecord labels usage (podLabelsOf labels pod))).Fraction
          = F64.div usage.AvgUsage 0 := by
      simp [applyResourceType, typeCPU, hsize]
    have hsz : (applyResourceType 0 usage node
        (newUsageRecord labels usage (podLabelsOf labels pod))).CloudResourceSize = 0 := by
      simp [applyResourceType, typeCPU, hsize]
    exact ⟨hsz, happ.trans hdiv, by rw [happ]; exact hfin⟩
  · subst hr
    have happ : (applyResourceType 1 usage node
        (newUsageRecord labels usage (podLabelsOf labels pod))).Fraction
          = F64.div usage.AvgUsage 0 := by
      simp [applyResourceType, typeCPU, typeMem, hsize]
    have hsz : (applyResourceType 1 usage node
        (newUsageRecord labels usage (podLabelsOf labels pod))).CloudResourceSize = 0 := by
      simp [applyResourceType, typeCPU, typeMem, hsize]
    exact ⟨hsz, happ.trans hdiv, by rw [happ]; exact hfin⟩

/-- The amended C2 at the group `returnedSeries`, resource type memory, on
`exampleNode`, whose memory capacity is zero. -/
theorem queryUsages_zero_capacity_witness :
    ∃ g ur, queryUsages.body exampleWorld 1 NewK8sClientStore returnedSeries = .ok g ∧
      g.logged = none ∧ g.record = some ur ∧
      ur.CloudResourceSize = 0 ∧
      ur.Fraction =
        (if 0 < exampleUsage.AvgUsage then F64.posInf
          else if exampleUsage.AvgUsage < 0 then F64.negInf else F64.nan) ∧
      ur.Fraction.isFinite = false :=
  queryUsages_zero_capacity exampleWorld 1 NewK8sClientStore returnedSeries exampleLabels
    exampleUsage exampleClient examplePod exampleNode parseMetricsLabels_returnedSeries
    calcUsage_returnedSeries GetOrCreate_exampleWorld GetPod_exampleWorld GetNode_exampleWorld
    (Or.inr ⟨rfl, rfl⟩)

/-- C3, at the failing input. On the empty sample list `calcUsage` panics with
an index out of range; `queryUsages` does not recover, so a six-label group
without samples ends the run with that panic and the group after it yields no
record, although alone it yields one. -/
theorem queryUsages_empty_window_panics :
    calcUsage emptySeries.PointData = .error (.indexOutOfRange 0 0) ∧
    (queryUsages exampleWorld [.ok emptySeries, .ok receivedSeries] NewK8sClientStore 0).map
      (fun res => res.urs) = .error (.indexOutOfRange 0 0) ∧
    ∃ ur, (queryUsages exampleWorld [.ok receivedSeries] NewK8sClientStore 0).map
      (fun res => res.urs) = .ok [ur] := by
  refine ⟨rfl, rfl, ?_⟩
  have hq : QueryTimeSeries [.ok receivedSeries] = ([returnedSeries], none) := by rfl
  refine ⟨applyResourceType 0 exampleUsage exampleNode
    (newUsageRecord exampleLabels exampleUsage (podLabelsOf exampleLabels examplePod)), ?_⟩
  unfold queryUsages
  rw [hq]
  simp only [queryUsages.loop, bind, Except.bind,
    queryUsages_body_resolved exampleWorld 0 NewK8sClientStore returnedSeries
      exampleLabels exampleUsage exampleClient examplePod exampleNode
      parseMetricsLabels_returnedSeries calcUsage_returnedSeries GetOrCreate_exampleWorld
      GetPod_exampleWorld GetNode_exampleWorld]
  rfl

/-! ## `Cluster.String` as a cache key -/

/-- C11, at the failing input. The regional cluster `a-prod` in `us-central1`
and the zonal cluster `prod` in `us-central1-a` of one project differ in
location and name, yet `Cluster.String` gives both the key
`x-us-central1-a-prod`; after `GetOrCreate` has created a handle for the
first, `GetOrCreate` for the second makes no call and returns that handle,
which is bound to the first cluster. -/
theorem GetOrCreate_key_collision :
    regionalCluster.Location ≠ zonalCluster.Location ∧
    regionalCluster.Name ≠ zonalCluster.Name ∧
    regionalCluster.String = "x-us-central1-a-prod" ∧
    zonalCluster.String = "x-us-central1-a-prod" ∧
    (NewK8sClientStore.GetOrCreate exampleWorld regionalCluster).result = .ok regionalClient ∧
    ((NewK8sClientStore.GetOrCreate exampleWorld regionalCluster).store.GetOrCreate
      exampleWorld zonalCluster).result = .ok regionalClient ∧
    ((NewK8sClientStore.GetOrCreate exampleWorld regionalCluster).store.GetOrCreate
      exampleWorld zonalCluster).calls = [] ∧
    regionalClient.cluster.Name = "a-prod" ∧ regionalClient.cluster.Location = "us-central1" := by
  refine ⟨by decide, by decide, by decide, by decide, rfl, rfl, rfl, rfl, rfl⟩

/-! ## The labels of a record -/

theorem GoMap.mem_keysIn_setIn {β : Type} (k k2 : String) (v : β) (l : List (String × β)) :
    k2 ∈ GoMap.keysIn (GoMap.setIn k v l) ↔ k2 = k ∨ k2 ∈ GoMap.keysIn l := by
  induction l with
  | nil => simp [GoMap.setIn, GoMap.keysIn]
  | cons kv rest ih =>
    obtain ⟨k1, v1⟩ := kv
    by_cases h : k1 = k
    · subst h
      simp [GoMap.setIn, GoMap.keysIn]
    · simp only [GoMap.setIn, h, if_false]
      simp only [GoMap.keysIn, List.map_cons, List.mem_cons] at ih ⊢
      rw [ih]
      tauto

theorem GoMap.nodup_keysIn_setIn {β : Type} (k : String) (v : β) (l : List (String × β))
    (h : (GoMap.keysIn l).Nodup) : (GoMap.keysIn (GoMap.setIn k v l)).Nodup := by
  induction l with
  | nil => simp [GoMap.setIn, GoMap.keysIn]
  | cons kv rest ih =>
    obtain ⟨k1, v1⟩ := kv
    have hcons : k1 ∉ GoMap.keysIn rest ∧ (GoMap.keysIn rest).Nodup := by
      simpa [GoMap.keysIn] using h
    by_cases h1 : k1 = k
    · subst h1
      simpa [GoMap.setIn, GoMap.keysIn] using hcons
    · simp only [GoMap.setIn, h1, if_false]
      have hnot : k1 ∉ GoMap.keysIn (GoMap.setIn k v rest) := by
        rw [GoMap.mem_keysIn_setIn]
        rintro (heq | hmem)
        · exact h1 heq
        · exact hcons.1 hmem
      show (k1 :: GoMap.keysIn (GoMap.setIn k v rest)).Nodup
      exact List.nodup_cons.mpr ⟨hnot, ih hcons.2⟩

theorem GoMap.WF_set {β : Type} (m : GoMap β) (k : String) (v : β) (h : m.WF) :
    (m.set k v).WF :=
  GoMap.nodup_keysIn_setIn k v m.entries h

theorem GoMap.WF_empty {β : Type} : (GoMap.empty : GoMap β).WF := by
  simp [GoMap.WF, GoMap.empty, GoMap.keysIn]

theorem GoMap.mem_iff_lookupIn {β : Type} (k : String) (v : β) (l : List (String × β))
    (h : (GoMap.keysIn l).Nodup) : (k, v) ∈ l ↔ GoMap.lookupIn k l = some v := by
  induction l with
  | nil => simp [GoMap.lookupIn]
  | cons kv rest ih =>
    obtain ⟨k1, v1⟩ := kv
    have hcons : k1 ∉ GoMap.keysIn rest ∧ (GoMap.keysIn rest).Nodup := by
      simpa [GoMap.keysIn] using h
    by_cases h1 : k1 = k
    · subst h1
      have hnot : (k1, v) ∉ rest := fun hmem =>
        hcons.1 (List.mem_map.mpr ⟨(k1, v), hmem, rfl⟩)
      simp only [GoMap.lookupIn, if_true, List.mem_cons, Prod.mk.injEq, true_and,
        Option.some.injEq]
      constructor
      · rintro (heq | hmem)
        · exact heq.symm
        · exact absurd hmem hnot
      · intro heq
        exact Or.inl heq.symm
    · have hne : ¬ (k = k1) := fun e => h1 e.symm
      simp only [GoMap.lookupIn, h1, if_false, List.mem_cons, Prod.mk.injEq, hne, false_and,
        false_or]
      exact ih hcons.2

theorem GoMap.mem_entries_iff_lookup {β : Type} (m : GoMap β) (k : String) (v : β)
    (h : m.WF) : (k, v) ∈ m.entries ↔ m.lookup k = some v :=
  GoMap.mem_iff_lookupIn k v m.entries h

theorem mem_ToLabelSlice (m : GoMap String) (key value : String) :
    ({ Key := key, Value := value } : Label) ∈ ToLabelSlice m ↔ (key, value) ∈ m.entries := by
  unfold ToLabelSlice
  constructor
  · intro h
    obtain ⟨kv, hkv, heq⟩ := List.mem_map.mp h
    obtain ⟨k1, v1⟩ := kv
    simp only [Label.mk.injEq] at heq
    obtain ⟨rfl, rfl⟩ := heq
    exact hkv
  · intro h
    exact List.mem_map.mpr ⟨(key, value), h, rfl⟩

theorem ToLabelSlice_keys (m : GoMap String) :
    (ToLabelSlice m).map Label.Key = GoMap.keysIn m.entries := by
  simp [ToLabelSlice, GoMap.keysIn, List.map_map, Function.comp_def]

/-- The label map of a record is a well-formed map when the label map of the pod is. -/
theorem podLabelsOf_WF (labels : Labels) (pod : V1Pod)
    (hwf : ∀ m, pod.Labels = some m → m.WF) : (podLabelsOf labels pod).WF := by
  unfold podLabelsOf
  apply GoMap.WF_set
  apply GoMap.WF_set
  cases h : pod.Labels with
  | none => exact GoMap.WF_empty
  | some m => exact hwf m h

/-- The reads of the label map of a record. -/
theorem podLabelsOf_lookup (labels : Labels) (pod : V1Pod) (key : String) :
    (podLabelsOf labels pod).lookup key =
      (if key = "container-name" then some labels.Container
        else if key = "pod-name" then some labels.PodName
        else readLabel pod.Labels key) := by
  unfold podLabelsOf
  by_cases hc : key = "container-name"
  · subst hc
    simp only [if_true]
    exact GoMap.lookup_set_self _ _ _
  · have hc2 : key ≠ containerNameKey := hc
    rw [GoMap.lookup_set_of_ne _ _ _ _ hc2]
    simp only [hc, if_false]
    by_cases hp : key = "pod-name"
    · subst hp
      simp only [if_true]
      exact GoMap.lookup_set_self _ _ _
    · have hp2 : key ≠ podNameKey := hp
      rw [GoMap.lookup_set_of_ne _ _ _ _ hp2]
      simp only [hp, if_false]
      cases pod.Labels with
      | none => rfl
      | some m => rfl

/-- C12. For every group whose labels parse, whose usage is computed and whose
cluster handle, pod and node are resolved, the loop body of `queryUsages`
appends a record whose `Labels`, read as a set of key/value pairs, are the
label map of the pod (empty when the pod has none) with `pod-name` mapped to
the pod name and `container-name` mapped to the container name of the group:
a pair is among the labels exactly when the updated map has that value under
that key, so a pod label under one of the two keys is replaced; and no key
occurs in two labels. -/
theorem queryUsages_record_labels (w : World) (r : resourceType) (s : K8sClientStore)
    (d : TimeSeriesData) (labels : Labels) (usage : Usage) (k8sClient : K8sClient)
    (pod : V1Pod) (node : NodeCache)
    (hl : parseMetricsLabels d.LabelValues = .ok (.ok labels))
    (hu : calcUsage d.PointData = .ok usage)
    (hc : (s.GetOrCreate w (clusterOf labels)).result = .ok k8sClient)
    (hp : k8sClient.GetPod w labels.Namespace labels.PodName = .ok pod)
    (hn : k8sClient.GetNode w pod.NodeName = .ok node)
    (hwf : ∀ m, pod.Labels = some m → m.WF) :
    ∃ g ur, queryUsages.body w r s d = .ok g ∧ g.record = some ur ∧
      (∀ key value : String, ({ Key := key, Value := value } : Label) ∈ ur.Labels ↔
        (if key = "container-name" then some labels.Container
          else if key = "pod-name" then some labels.PodName
          else readLabel pod.Labels key) = some value) ∧
      (ur.Labels.map Label.Key).Nodup := by
  refine ⟨_, _, queryUsages_body_resolved w r s d labels usage k8sClient pod node hl hu hc hp hn,
    rfl, ?_, ?_⟩
  · intro key value
    rw [(applyResourceType_keeps r usage node _).2.2.2.2.2.2.2]
    show ({ Key := key, Value := value } : Label) ∈ ToLabelSlice (podLabelsOf labels pod) ↔ _
    rw [mem_ToLabelSlice, GoMap.mem_entries_iff_lookup _ _ _ (podLabelsOf_WF labels pod hwf),
      podLabelsOf_lookup]
  · rw [(applyResourceType_keeps r usage node _).2.2.2.2.2.2.2]
    show ((ToLabelSlice (podLabelsOf labels pod)).map Label.Key).Nodup
    rw [ToLabelSlice_keys]
    exact podLabelsOf_WF labels pod hwf

/-- C12 at the group `returnedSeries` when the pod already has a label
`pod-name`: the record has the pod name of the group under that key. -/
theorem queryUsages_record_labels_witness :
    ∃ g ur, queryUsages.body relabelWorld 0 NewK8sClientStore returnedSeries = .ok g ∧
      g.record = some ur ∧
      (∀ key value : String, ({ Key := key, Value := value } : Label) ∈ ur.Labels ↔
        (if key = "container-name" then some exampleLabels.Container
          else if key = "pod-name" then some exampleLabels.PodName
          else readLabel relabelledPod.Labels key) = some value) ∧
      (ur.Labels.map Label.Key).Nodup :=
  queryUsages_record_labels relabelWorld 0 NewK8sClientStore returnedSeries exampleLabels
    exampleUsage exampleClient relabelledPod exampleNode parseMetricsLabels_returnedSeries
    calcUsage_returnedSeries rfl rfl rfl
    (by
      intro m hm
      have hm2 : m = ⟨[("pod-name", "old"), ("app", "web")]⟩ := by
        simpa [relabelledPod] using hm.symm
      subst hm2
      simp [GoMap.WF, GoMap.keysIn])

/-! ## `setFieldOptional` -/

mutual
theorem setFieldOptionalField_allOptional :
    ∀ f : FieldSchema, (setFieldOptionalField f).allOptional = true
  | .mk _ _ _ _ _ schema => by
    simp [setFieldOptionalField, FieldSchema.allOptional, setFieldOptional_allOptional schema]
theorem setFieldOptional_allOptional :
    ∀ schema : List FieldSchema, allOptional (setFieldOptional schema) = true
  | [] => by simp [setFieldOptional, allOptional]
  | f :: rest => by
    simp [setFieldOptional, allOptional, setFieldOptionalField_allOptional f,
      setFieldOptional_allOptional rest]
end

mutual
theorem setFieldOptionalField_shape :
    ∀ f : FieldSchema, (setFieldOptionalField f).shape = f.shape
  | .mk _ _ _ _ _ schema => by
    simp [setFieldOptionalField, FieldSchema.shape, setFieldOptional_shapes schema]
theorem setFieldOptional_shapes :
    ∀ schema : List FieldSchema, shapes (setFieldOptional schema) = shapes schema
  | [] => by simp [setFieldOptional, shapes]
  | f :: rest => by
    simp [setFieldOptional, shapes, setFieldOptionalField_shape f,
      setFieldOptional_shapes rest]
end

theorem setFieldOptional_length (schema : List FieldSchema) :
    (setFieldOptional schema).length = schema.length := by
  induction schema with
  | nil => simp [setFieldOptional]
  | cons f rest ih => simp [setFieldOptional, ih]

/-- C14. For every schema (a finite tree of field schemas), `setFieldOptional`
returns a schema in which every field at every nesting depth has
`Required = false`, with as many fields as before and with the shape
unchanged: names, descriptions, types, repeated flags, order and nesting of
the fields are what they were. -/
theorem setFieldOptional_spec (schema : List FieldSchema) :
    allOptional (setFieldOptional schema) = true ∧
    (setFieldOptional schema).length = schema.length ∧
    shapes (setFieldOptional schema) = shapes schema :=
  ⟨setFieldOptional_allOptional schema, setFieldOptional_length schema,
    setFieldOptional_shapes schema⟩

/-! ## `export` -/

/-- C13, as the code has it. In every run of `export` in which the CPU query
and the memory query return, `WriteUsage` is called exactly once, after both,
with the CPU records followed by the memory records (an empty batch included);
the error of `WriteUsage`, if any, is what the run logs, and no second batch
is written. -/
theorem export_writes_once (w : World) (m : Monitoring) (b : BigQuery) (projectID : String)
    (s : K8sClientStore) (cpu mem : QueryResult)
    (hcpu : exportCPU w m projectID s = .ok cpu)
    (hmem : exportMemory w m projectID cpu.store = .ok mem) :
    ∃ res, MetricsTracker.export w m b projectID s = .ok res ∧
      res.writes = [cpu.urs ++ mem.urs] ∧
      res.writes.length = 1 ∧
      res.logged = WriteUsage b (cpu.urs ++ mem.urs) := by
  refine ⟨{ writes := [cpu.urs ++ mem.urs], logged := WriteUsage b (cpu.urs ++ mem.urs),
            store := mem.store, calls := cpu.calls ++ mem.calls }, ?_, rfl, rfl, rfl⟩
  unfold MetricsTracker.export
  simp only [hcpu, hmem, bind, Except.bind, pure, Except.pure, List.nil_append]

theorem calcUsage_memorySeries : calcUsage memorySeries.PointData = .ok memoryUsage := by
  rw [calcUsage_ok _ (by simp [memorySeries]) (by simp [memorySeries])]
  norm_num [memorySeries, memoryUsage, PointData.value, PointData.seconds, Time.Sub,
    Duration.Seconds, TypedValue.GetDoubleValue]

theorem exportCPU_exampleMonitoring :
    exportCPU meteredWorld exampleMonitoring "p" NewK8sClientStore = .ok cpuResult := by
  have hq : QueryTimeSeries [.ok receivedSeries] = ([returnedSeries], none) := by rfl
  have hm : monitoringRequest exampleMonitoring "p" CPUUsageTime = [.ok receivedSeries] := by
    simp [monitoringRequest, exampleMonitoring]
  unfold exportCPU queryUsages
  rw [hm, hq]
  simp only [queryUsages.loop, bind, Except.bind,
    queryUsages_body_resolved meteredWorld typeCPU NewK8sClientStore returnedSeries
      exampleLabels exampleUsage exampleClient examplePod meteredNode
      parseMetricsLabels_returnedSeries calcUsage_returnedSeries rfl rfl rfl]
  rfl

theorem exportMemory_exampleMonitoring :
    exportMemory meteredWorld exampleMonitoring "p" exampleStore = .ok memResult := by
  have hq : QueryTimeSeries [.ok memorySeries] = ([memorySeries], none) := by rfl
  have hm : monitoringRequest exampleMonitoring "p" MemoryUsedBytes = [.ok memorySeries] := by
    have hne : MemoryUsedBytes ≠ CPUUsageTime := by decide
    simp [monitoringRequest, exampleMonitoring, hne]
  unfold exportMemory queryUsages
  rw [hm, hq]
  simp only [queryUsages.loop, bind, Except.bind,
    queryUsages_body_resolved meteredWorld typeMem exampleStore memorySeries
      exampleLabels memoryUsage exampleClient examplePod meteredNode
      rfl calcUsage_memorySeries rfl rfl rfl]
  rfl

/-- The amended C13 at a cycle with one CPU record, one memory record and a
sink whose insertion fails: the one batch is the CPU record followed by the
memory record, and the error of the insertion is logged. -/
theorem export_writes_once_witness :
    ∃ res, MetricsTracker.export meteredWorld exampleMonitoring failingSink "p"
        NewK8sClientStore = .ok res ∧
      res.writes = [[cpuRecord, memRecord]] ∧
      res.writes.length = 1 ∧
      res.logged = some (.writeTable (.external 500)) :=
  export_writes_once meteredWorld exampleMonitoring failingSink "p" NewK8sClientStore
    cpuResult memResult exportCPU_exampleMonitoring exportMemory_exampleMonitoring

/-- The claim C13 fails. When the CPU query has a six-label group without
samples, `exportCPU` panics in `calcUsage`, and the run of `export` ends with
that panic before the statement that calls `WriteUsage`: the run has no
result and no batch is written. -/
theorem export_writes_once_counterexample :
    monitoringRequest emptyWindowMonitoring "p" CPUUsageTime = [.ok emptySeries] ∧
    (exportCPU exampleWorld emptyWindowMonitoring "p" NewK8sClientStore).map
      (fun res => res.urs) = .error (.indexOutOfRange 0 0) ∧
    (MetricsTracker.export exampleWorld emptyWindowMonitoring failingSink "p"
      NewK8sClientStore).map (fun res => res.writes) = .error (.indexOutOfRange 0 0) ∧
    ¬ ∃ res, MetricsTracker.export exampleWorld emptyWindowMonitoring failingSink "p"
      NewK8sClientStore = .ok res := by
  have hm : monitoringRequest emptyWindowMonitoring "p" CPUUsageTime = [.ok emptySeries] := by
    simp [monitoringRequest, emptyWindowMonitoring]
  have hcpu : exportCPU exampleWorld emptyWindowMonitoring "p" NewK8sClientStore
      = .error (.indexOutOfRange 0 0) := by
    unfold exportCPU
    rw [hm]
    rfl
  have hexp : MetricsTracker.export exampleWorld emptyWindowMonitoring failingSink "p"
      NewK8sClientStore = .error (.indexOutOfRange 0 0) := by
    unfold MetricsTracker.export
    simp only [hcpu, bind, Except.bind]
  refine ⟨hm, ?_, ?_, ?_⟩
  · rw [hcpu]
    rfl
  · rw [hexp]
    rfl
  · rintro ⟨res, hres⟩
    rw [hexp] at hres
    cases hres

/-! ## Two runs in sequence -/

/-- C15, at the failing input. The telemetry source has a group of the
regional cluster `a-prod`, which the cluster manager does not resolve, and
then a group of the zonal cluster `prod`, which it resolves; both clusters
have the key `x-us-central1-a-prod`. The first run of `queryUsages` skips the
first group and returns one record; the second run, from the store the first
left, finds the handle of the zonal cluster under the key of the regional one
and returns two records. -/
theorem queryUsages_twice_differs :
    (queryUsagesTwice collisionWorld [.ok regionalSeries, .ok zonalSeries]
      NewK8sClientStore 0).map (fun p => (p.1.length, p.2.length)) = .ok (1, 2) ∧
    (queryUsagesTwice collisionWorld [.ok regionalSeries, .ok zonalSeries]
      NewK8sClientStore 0).map
        (fun p => (p.1.map (fun ur => (ur.ClusterName, ur.ClusterLocation)),
          p.2.map (fun ur => (ur.ClusterName, ur.ClusterLocation)))) =
      .ok ([("prod", "us-central1-a")],
        [("a-prod", "us-central1"), ("prod", "us-central1-a")]) := by
  constructor <;> rfl

/-! ## `Start` and `Stop` -/

/-- C16, at the failing input. After `NewMetricsTracker`, `Start` and `Stop`
the three clients are closed, but the ticker is still active, the goroutine is
still in its loop and the context is not cancelled, because `cancel` is nil;
the next firing of the ticker begins another export cycle. A second `Stop`
changes nothing. -/
theorem Stop_leaves_ticker_running :
    NewMetricsTracker.cancel.isNone = true ∧
    NewMetricsTracker.Stop (NewMetricsTracker.Start Scheduler.initial) =
      { bigqueryClosed := true, containerClosed := true, monitoringClosed := true
        tickerActive := true, looping := true, contextCancelled := false, cycles := 1 } ∧
    (NewMetricsTracker.tick
      (NewMetricsTracker.Stop (NewMetricsTracker.Start Scheduler.initial))).cycles = 2 ∧
    NewMetricsTracker.Stop
        (NewMetricsTracker.Stop (NewMetricsTracker.Start Scheduler.initial)) =
      NewMetricsTracker.Stop (NewMetricsTracker.Start Scheduler.initial) := by
  refine ⟨rfl, ?_, ?_, ?_⟩ <;> decide

/-! ## Two runs in sequence over groups with separate keys -/

/-- The three ways in which a call of `GetOrCreate` ends. -/
theorem GetOrCreate_cases (w : World) (s : K8sClientStore) (c : Cluster) :
    (∃ k, s.clientmap.lookup c.String = some k ∧
      (s.GetOrCreate w c).result = .ok k ∧ (s.GetOrCreate w c).store = s) ∨
    (s.clientmap.lookup c.String = none ∧ ¬ Resolvable w c ∧
      ∃ err, (s.GetOrCreate w c).result = .error err ∧ (s.GetOrCreate w c).store = s) ∨
    (s.clientmap.lookup c.String = none ∧ Resolvable w c ∧
      ∃ k, (s.GetOrCreate w c).result = .ok k ∧
        (s.GetOrCreate w c).store = { clientmap := s.clientmap.set c.String k }) := by
  cases hl : s.clientmap.lookup c.String with
  | some k =>
    obtain ⟨h1, h2, _⟩ := GetOrCreate_cached w s c k hl
    exact Or.inl ⟨k, rfl, h1, h2⟩
  | none =>
    cases hg : GetCluster w c with
    | error err =>
      refine Or.inr (Or.inl ⟨rfl, ?_, err, ?_, ?_⟩)
      · rintro ⟨v1, k, hv, _⟩
        rw [hg] at hv
        cases hv
      · simp [K8sClientStore.GetOrCreate, hl, hg]
      · simp [K8sClientStore.GetOrCreate, hl, hg]
    | ok v1 =>
      cases hn : NewK8sClient w { c with Cluster := some v1 } with
      | error err =>
        refine Or.inr (Or.inl ⟨rfl, ?_, err, ?_, ?_⟩)
        · rintro ⟨v2, k, hv, hk⟩
          rw [hg] at hv
          cases hv
          rw [hn] at hk
          cases hk
        · simp [K8sClientStore.GetOrCreate, hl, hg, hn]
        · simp [K8sClientStore.GetOrCreate, hl, hg, hn]
      | ok k =>
        refine Or.inr (Or.inr ⟨rfl, ⟨v1, k, hg, hn⟩, k, ?_, ?_⟩)
        · simp [K8sClientStore.GetOrCreate, hl, hg, hn]
        · simp [K8sClientStore.GetOrCreate, hl, hg, hn]

/-- A call of `GetOrCreate` keeps what the map holds. -/
theorem GetOrCreate_store_mono (w : World) (s : K8sClientStore) (c : Cluster)
    (key : String) (k : K8sClient) (h : s.clientmap.lookup key = some k) :
    (s.GetOrCreate w c).store.clientmap.lookup key = some k := by
  rcases GetOrCreate_cases w s c with ⟨_, _, _, hs⟩ | ⟨_, _, _, _, hs⟩ | ⟨hun, _, k2, _, hs⟩
  · rw [hs]; exact h
  · rw [hs]; exact h
  · rw [hs]
    have hne : key ≠ c.String := by
      intro heq
      rw [heq, hun] at h
      cases h
    show (s.clientmap.set c.String k2).lookup key = some k
    rw [GoMap.lookup_set_of_ne _ _ _ _ hne]
    exact h

/-- What the map holds after a call of `GetOrCreate` was there before or
belongs to the cluster of the call, which then resolves. -/
theorem GetOrCreate_store_provenance (w : World) (s : K8sClientStore) (c : Cluster)
    (key : String) (k : K8sClient)
    (h : (s.GetOrCreate w c).store.clientmap.lookup key = some k) :
    s.clientmap.lookup key = some k ∨ (key = c.String ∧ Resolvable w c) := by
  rcases GetOrCreate_cases w s c with ⟨_, _, _, hs⟩ | ⟨_, _, _, _, hs⟩ | ⟨_, hres, k2, _, hs⟩
  · rw [hs] at h; exact Or.inl h
  · rw [hs] at h; exact Or.inl h
  · by_cases hkey : key = c.String
    · exact Or.inr ⟨hkey, hres⟩
    · rw [hs] at h
      have h2 : (s.clientmap.set c.String k2).lookup key = some k := h
      rw [GoMap.lookup_set_of_ne _ _ _ _ hkey] at h2
      exact Or.inl h2

/-- A failed call of `GetOrCreate` fails again, with the same error, on every
store that has no handle under the key. -/
theorem GetOrCreate_error_again (w : World) (s u : K8sClientStore) (c : Cluster)
    (err : GoError) (h : (s.GetOrCreate w c).result = .error err)
    (hu : u.clientmap.lookup c.String = none) :
    (u.GetOrCreate w c).result = .error err ∧ (u.GetOrCreate w c).store = u := by
  have hs : s.clientmap.lookup c.String = none := by
    rcases GetOrCreate_cases w s c with ⟨k, _, hr, _⟩ | ⟨hun, _⟩ | ⟨hun, _⟩
    · rw [hr] at h; cases h
    · exact hun
    · exact hun
  unfold K8sClientStore.GetOrCreate at h ⊢
  simp only [hs] at h
  simp only [hu]
  cases hg : GetCluster w c with
  | error e1 =>
    simp only [hg] at h ⊢
    exact ⟨h, trivial⟩
  | ok v1 =>
    simp only [hg] at h ⊢
    cases hn : NewK8sClient w { c with Cluster := some v1 } with
    | error e1 =>
      simp only [hn] at h ⊢
      exact ⟨h, trivial⟩
    | ok k =>
      simp only [hn] at h
      cases h

theorem queryUsages_body_parse_cases (d : TimeSeriesData) :
    parseMetricsLabels d.LabelValues = .ok (.error (.parseLabelValues d.LabelValues.length)) ∧
      d.LabelValues.length ≠ 6 ∨
    ∃ labels, parseMetricsLabels d.LabelValues = .ok (.ok labels) := by
  by_cases h6 : d.LabelValues.length = 6
  · obtain ⟨l, hl, _⟩ := parseMetricsLabels_of_length_eq d.LabelValues h6
    exact Or.inr ⟨l, hl⟩
  · exact Or.inl ⟨parseMetricsLabels_of_length_ne d.LabelValues h6, h6⟩

/-- The iteration for a group whose labels parse leaves the store that
`GetOrCreate` leaves for the cluster of the group. -/
theorem queryUsages_body_store (w : World) (r : resourceType) (t : K8sClientStore)
    (d : TimeSeriesData) (labels : Labels) (g : GroupResult)
    (hl : parseMetricsLabels d.LabelValues = .ok (.ok labels))
    (hg : queryUsages.body w r t d = .ok g) :
    g.store = (t.GetOrCreate w (clusterOf labels)).store := by
  unfold queryUsages.body at hg
  rw [hl] at hg
  unfold clusterOf
  cases hu : calcUsage d.PointData with
  | error p =>
    simp only [bind, Except.bind, hu] at hg
    cases hg
  | ok usage =>
    simp only [bind, Except.bind, hu] at hg
    split at hg
    · cases hg
      rfl
    · split at hg
      · cases hg
        rfl
      · split at hg
        · cases hg
          rfl
        · cases hg
          rfl

/-- The iteration for a group depends on the store only through the result
of `GetOrCreate` for the cluster of the group. -/
theorem queryUsages_body_transfer (w : World) (r : resourceType) (t u : K8sClientStore)
    (d : TimeSeriesData) (labels : Labels) (g : GroupResult)
    (hl : parseMetricsLabels d.LabelValues = .ok (.ok labels))
    (hg : queryUsages.body w r t d = .ok g)
    (hres : (u.GetOrCreate w (clusterOf labels)).result
      = (t.GetOrCreate w (clusterOf labels)).result) :
    ∃ g2, queryUsages.body w r u d = .ok g2 ∧ g2.record = g.record ∧
      g2.store = (u.GetOrCreate w (clusterOf labels)).store := by
  unfold queryUsages.body at hg ⊢
  rw [hl] at hg ⊢
  unfold clusterOf at hres ⊢
  cases hu : calcUsage d.PointData with
  | error p =>
    simp only [bind, Except.bind, hu] at hg
    cases hg
  | ok usage =>
    simp only [bind, Except.bind, hu] at hg ⊢
    rw [hres]
    split at hg
    · cases hg
      exact ⟨_, rfl, rfl, rfl⟩
    · split at hg
      · cases hg
        exact ⟨_, rfl, rfl, rfl⟩
      · split at hg
        · cases hg
          exact ⟨_, rfl, rfl, rfl⟩
        · cases hg
          exact ⟨_, rfl, rfl, rfl⟩

theorem groupsRun_cons_ok (w : World) (r : resourceType) (d : TimeSeriesData)
    (rest : List TimeSeriesData) (s s1 : K8sClientStore) (new : List UsageRecord)
    (h : groupsRun w r (d :: rest) s = .ok (new, s1)) :
    ∃ g new2, queryUsages.body w r s d = .ok g ∧
      groupsRun w r rest g.store = .ok (new2, s1) ∧ new = g.record.toList ++ new2 := by
  unfold groupsRun at h
  cases hb : queryUsages.body w r s d with
  | error p =>
    rw [hb] at h
    cases h
  | ok g =>
    rw [hb] at h
    simp only [] at h
    cases hr : groupsRun w r rest g.store with
    | error p =>
      rw [hr] at h
      cases h
    | ok res =>
      obtain ⟨new2, st⟩ := res
      rw [hr] at h
      simp only [Except.ok.injEq, Prod.mk.injEq] at h
      obtain ⟨h1, h2⟩ := h
      rw [h2] at hr
      exact ⟨g, new2, rfl, hr, h1.symm⟩

/-- The store of one iteration keeps what the map holds. -/
theorem queryUsages_body_mono (w : World) (r : resourceType) (t : K8sClientStore)
    (d : TimeSeriesData) (g : GroupResult) (hg : queryUsages.body w r t d = .ok g)
    (key : String) (k : K8sClient) (h : t.clientmap.lookup key = some k) :
    g.store.clientmap.lookup key = some k := by
  rcases queryUsages_body_parse_cases d with ⟨_, h6⟩ | ⟨l, hl⟩
  · rw [queryUsages_body_malformed w r t d h6] at hg
    cases hg
    exact h
  · rw [queryUsages_body_store w r t d l g hl hg]
    exact GetOrCreate_store_mono w t _ key k h

/-- A run over groups keeps what the map holds. -/
theorem groupsRun_mono (w : World) (r : resourceType) (dp : List TimeSeriesData) :
    ∀ (s s1 : K8sClientStore) (new : List UsageRecord),
      groupsRun w r dp s = .ok (new, s1) →
      ∀ (key : String) (k : K8sClient), s.clientmap.lookup key = some k →
        s1.clientmap.lookup key = some k := by
  induction dp with
  | nil =>
    intro s s1 new h key k hk
    simp only [groupsRun, Except.ok.injEq, Prod.mk.injEq] at h
    rw [← h.2]
    exact hk
  | cons d rest ih =>
    intro s s1 new h key k hk
    obtain ⟨g, new2, hb, hrest, _⟩ := groupsRun_cons_ok w r d rest s s1 new h
    exact ih g.store s1 new2 hrest key k (queryUsages_body_mono w r s d g hb key k hk)

/-- What the map holds after a run over groups was there before or belongs to
the cluster of one of the groups, which resolves. -/
theorem groupsRun_provenance (w : World) (r : resourceType) (dp : List TimeSeriesData) :
    ∀ (s s1 : K8sClientStore) (new : List UsageRecord),
      groupsRun w r dp s = .ok (new, s1) →
      ∀ (key : String) (k : K8sClient), s1.clientmap.lookup key = some k →
        s.clientmap.lookup key = some k ∨
        ∃ e ∈ dp, ∃ le, parseMetricsLabels e.LabelValues = .ok (.ok le) ∧
          key = (clusterOf le).String ∧ Resolvable w (clusterOf le) := by
  induction dp with
  | nil =>
    intro s s1 new h key k hk
    simp only [groupsRun, Except.ok.injEq, Prod.mk.injEq] at h
    rw [← h.2] at hk
    exact Or.inl hk
  | cons d rest ih =>
    intro s s1 new h key k hk
    obtain ⟨g, new2, hb, hrest, _⟩ := groupsRun_cons_ok w r d rest s s1 new h
    rcases ih g.store s1 new2 hrest key k hk with hg | ⟨e, he, le, hle, hkey, hres⟩
    · rcases queryUsages_body_parse_cases d with ⟨_, h6⟩ | ⟨l, hl⟩
      · rw [queryUsages_body_malformed w r s d h6] at hb
        cases hb
        exact Or.inl hg
      · rw [queryUsages_body_store w r s d l g hl hb] at hg
        rcases GetOrCreate_store_provenance w s _ key k hg with hs | ⟨hkey, hres⟩
        · exact Or.inl hs
        · exact Or.inr ⟨d, List.mem_cons_self _ _, l, hl, hkey, hres⟩
    · exact Or.inr ⟨e, List.mem_cons_of_mem _ he, le, hle, hkey, hres⟩

theorem KeysSeparate_tail (d : TimeSeriesData) (rest : List TimeSeriesData)
    (h : KeysSeparate (d :: rest)) : KeysSeparate rest :=
  fun a ha b hb => h a (List.mem_cons_of_mem _ ha) b (List.mem_cons_of_mem _ hb)

/-- When the groups have separate keys, a second run over them, from the store
that the first run leaves, appends the same records and leaves that store. -/
theorem groupsRun_again (w : World) (r : resourceType) (dp : List TimeSeriesData) :
    ∀ (s s1 : K8sClientStore) (new : List UsageRecord),
      groupsRun w r dp s = .ok (new, s1) → KeysSeparate dp →
      groupsRun w r dp s1 = .ok (new, s1) := by
  induction dp with
  | nil =>
    intro s s1 new h _
    simp only [groupsRun, Except.ok.injEq, Prod.mk.injEq] at h
    rw [← h.1]
    rfl
  | cons d rest ih =>
    intro s s1 new h hsep
    obtain ⟨g, new2, hb, hrest, hnew⟩ := groupsRun_cons_ok w r d rest s s1 new h
    have hagain := ih g.store s1 new2 hrest (KeysSeparate_tail d rest hsep)
    -- the iteration for `d` on the final store
    have hbody : ∃ g2, queryUsages.body w r s1 d = .ok g2 ∧ g2.record = g.record ∧
        g2.store = s1 := by
      rcases queryUsages_body_parse_cases d with ⟨_, h6⟩ | ⟨l, hl⟩
      · rw [queryUsages_body_malformed w r s d h6] at hb
        cases hb
        exact ⟨_, queryUsages_body_malformed w r s1 d h6, rfl, rfl⟩
      · have hstore := queryUsages_body_store w r s d l g hl hb
        have hsame : (s1.GetOrCreate w (clusterOf l)).result
              = (s.GetOrCreate w (clusterOf l)).result ∧
            (s1.GetOrCreate w (clusterOf l)).store = s1 := by
          rcases GetOrCreate_cases w s (clusterOf l) with
            ⟨k, hk, hr, _⟩ | ⟨hun, hnot, err, hr, hs⟩ | ⟨_, _, k, hr, _⟩
          · have h1 : s1.clientmap.lookup (clusterOf l).String = some k :=
              groupsRun_mono w r (d :: rest) s s1 new h _ k hk
            obtain ⟨c1, c2, _⟩ := GetOrCreate_cached w s1 (clusterOf l) k h1
            exact ⟨c1.trans hr.symm, c2⟩
          · have hnone : s1.clientmap.lookup (clusterOf l).String = none := by
              cases hlook : s1.clientmap.lookup (clusterOf l).String with
              | none => rfl
              | some k =>
                exfalso
                rcases groupsRun_provenance w r (d :: rest) s s1 new h _ k hlook with
                  hs0 | ⟨e, he, le, hle, hkey, hres⟩
                · rw [hun] at hs0
                  cases hs0
                · have hc : clusterOf l = clusterOf le :=
                    hsep d (List.mem_cons_self _ _) e he l le hl hle hkey
                  rw [← hc] at hres
                  exact hnot hres
            obtain ⟨e1, e2⟩ := GetOrCreate_error_again w s s1 (clusterOf l) err hr hnone
            exact ⟨e1.trans hr.symm, e2⟩
          · have hk : g.store.clientmap.lookup (clusterOf l).String = some k := by
              rw [hstore]
              exact GetOrCreate_ok_lookup w s (clusterOf l) k hr
            have h1 : s1.clientmap.lookup (clusterOf l).String = some k :=
              groupsRun_mono w r rest g.store s1 new2 hrest _ k hk
            obtain ⟨c1, c2, _⟩ := GetOrCreate_cached w s1 (clusterOf l) k h1
            exact ⟨c1.trans hr.symm, c2⟩
        obtain ⟨g2, hg2, hrec, hst⟩ :=
          queryUsages_body_transfer w r s s1 d l g hl hb hsame.1
        exact ⟨g2, hg2, hrec, hst.trans hsame.2⟩
    obtain ⟨g2, hg2, hrec, hst⟩ := hbody
    unfold groupsRun
    rw [hg2]
    simp only []
    rw [hst, hagain, hrec, hnew]

theorem Except.map_eq_ok {ε α β : Type} (f : α → β) (x : Except ε α) (y : β)
    (h : x.map f = .ok y) : ∃ a, x = .ok a ∧ f a = y := by
  cases x with
  | error e => cases h
  | ok a =>
    simp only [Except.map, Except.ok.injEq] at h
    exact ⟨a, rfl, h⟩

/-- The loop of `queryUsages` appends to its accumulator what `groupsRun` yields. -/
theorem queryUsages_loop_eq_groupsRun (w : World) (r : resourceType)
    (dp : List TimeSeriesData) :
    ∀ acc : QueryResult,
      (queryUsages.loop w r dp acc).map (fun res => (res.urs, res.store)) =
        (groupsRun w r dp acc.store).map (fun p => (acc.urs ++ p.1, p.2)) := by
  induction dp with
  | nil =>
    intro acc
    simp [queryUsages.loop, groupsRun, Except.map]
  | cons d rest ih =>
    intro acc
    unfold queryUsages.loop groupsRun
    cases hb : queryUsages.body w r acc.store d with
    | error p => rfl
    | ok g =>
      simp only [bind, Except.bind]
      rw [ih]
      cases hr : groupsRun w r rest g.store with
      | error p => rfl
      | ok res =>
        obtain ⟨new, st⟩ := res
        cases hrec : g.record with
        | none => simp [Except.map]
        | some ur => simp [Except.map]

/-- Two runs of `queryUsages` in sequence, when the groups have separate keys:
the second run, from the store that the first leaves, returns the same records
and leaves the same store. -/
theorem queryUsages_twice_same (w : World) (backend : List (Except GoError TimeSeriesData))
    (s : K8sClientStore) (r : resourceType) (first : QueryResult)
    (hsep : KeysSeparate (QueryTimeSeries backend).1)
    (h1 : queryUsages w backend s r = .ok first) :
    ∃ second, queryUsages w backend first.store r = .ok second ∧
      second.urs = first.urs ∧ second.store = first.store := by
  unfold queryUsages at h1 ⊢
  cases hq : QueryTimeSeries backend with
  | mk dp err =>
    rw [hq] at h1 hsep
    cases err with
    | some e =>
      simp only [Except.ok.injEq] at h1
      subst h1
      exact ⟨_, rfl, rfl, rfl⟩
    | none =>
      simp only [] at h1 hsep ⊢
      have hloop := queryUsages_loop_eq_groupsRun w r dp { urs := [], store := s, calls := [] }
      rw [h1] at hloop
      obtain ⟨p, hp, hproj⟩ := Except.map_eq_ok _ _ _ hloop.symm
      obtain ⟨new, st⟩ := p
      simp only [List.nil_append, Prod.mk.injEq] at hproj
      obtain ⟨hurs, hst⟩ := hproj
      subst hst
      have hagain := groupsRun_again w r dp s first.store new hp hsep
      have hloop2 := queryUsages_loop_eq_groupsRun w r dp
        { urs := [], store := first.store, calls := [] }
      rw [hagain] at hloop2
      obtain ⟨second, hsecond, hproj2⟩ := Except.map_eq_ok _ _ _ hloop2
      simp only [List.nil_append, Prod.mk.injEq] at hproj2
      exact ⟨second, hsecond, hproj2.1.trans hurs, hproj2.2⟩

/-! ## The records of a run over groups with separate keys -/

/-- The result of `GetOrCreate` depends on the store only through what the
map holds under the key of the cluster. -/
theorem GetOrCreate_result_congr (w : World) (t u : K8sClientStore) (c : Cluster)
    (h : t.clientmap.lookup c.String = u.clientmap.lookup c.String) :
    (t.GetOrCreate w c).result = (u.GetOrCreate w c).result := by
  unfold K8sClientStore.GetOrCreate
  simp only [h]
  cases u.clientmap.lookup c.String with
  | some k => rfl
  | none =>
    simp only []
    cases GetCluster w c with
    | error err => rfl
    | ok v1 =>
      simp only []
      cases NewK8sClient w { c with Cluster := some v1 } <;> rfl

theorem SameHandles_refl (w : World) (dp : List TimeSeriesData) (s : K8sClientStore) :
    SameHandles w dp s s :=
  fun _ _ _ _ => rfl

/-- The iteration for a group keeps the handles of the clusters of all groups,
when the groups have separate keys. -/
theorem SameHandles_step (w : World) (dp : List TimeSeriesData) (s t : K8sClientStore)
    (hsep : KeysSeparate dp) (hinv : SameHandles w dp s t)
    (d : TimeSeriesData) (hd : d ∈ dp) (l : Labels)
    (hl : parseMetricsLabels d.LabelValues = .ok (.ok l)) :
    SameHandles w dp s (t.GetOrCreate w (clusterOf l)).store := by
  intro e he le hle
  rcases GetOrCreate_cases w t (clusterOf l) with
    ⟨_, _, _, hs⟩ | ⟨_, _, _, _, hs⟩ | ⟨hun, _, k, hr, hs⟩
  · rw [hs]
    exact hinv e he le hle
  · rw [hs]
    exact hinv e he le hle
  · by_cases hkey : (clusterOf le).String = (clusterOf l).String
    · have hc : clusterOf le = clusterOf l := hsep e he d hd le l hle hl hkey
      rw [hc]
      have hlook : (t.GetOrCreate w (clusterOf l)).store.clientmap.lookup (clusterOf l).String
          = some k := GetOrCreate_ok_lookup w t (clusterOf l) k hr
      rw [(GetOrCreate_cached w _ (clusterOf l) k hlook).1, ← hr]
      have := hinv e he le hle
      rw [hc] at this
      exact this
    · have hlook : (t.GetOrCreate w (clusterOf l)).store.clientmap.lookup (clusterOf le).String
          = t.clientmap.lookup (clusterOf le).String := by
        rw [hs]
        exact GoMap.lookup_set_of_ne _ _ _ _ hkey
      rw [GetOrCreate_result_congr w _ t (clusterOf le) hlook]
      exact hinv e he le hle

/-- The iteration for a group with samples that carry values, when
`GetOrCreate` yields a handle through which pod and node are found, appends
the record of the group. -/
theorem queryUsages_body_record (w : World) (r : resourceType) (t : K8sClientStore)
    (d : TimeSeriesData) (labels : Labels) (k : K8sClient) (pod : V1Pod) (node : NodeCache)
    (hl : parseMetricsLabels d.LabelValues = .ok (.ok labels))
    (hne : d.PointData ≠ []) (hval : CarriesValues d)
    (hk : (t.GetOrCreate w (clusterOf labels)).result = .ok k)
    (hp : k.GetPod w labels.Namespace labels.PodName = .ok pod)
    (hn : k.GetNode w pod.NodeName = .ok node) :
    ∃ g ur, queryUsages.body w r t d = .ok g ∧ g.record = some ur ∧
      g.store = (t.GetOrCreate w (clusterOf labels)).store ∧ recordOfGroup d ur := by
  have hu := calcUsage_ok d.PointData hne hval
  refine ⟨_, _, queryUsages_body_resolved w r t d labels _ k pod node hl hu hk hp hn, rfl,
    rfl, ?_⟩
  obtain ⟨k1, k2, k3, k4, k5, k6, k7, k8⟩ := applyResourceType_keeps r
    { StartTime := (d.PointData.head hne).TimeInterval.StartTime
      EndTime := (d.PointData.getLast hne).TimeInterval.EndTime
      Value := (d.PointData.map (fun pd => pd.value * pd.seconds)).sum
      AvgUsage := (d.PointData.map PointData.value).sum / (d.PointData.length : ℚ) }
    node (newUsageRecord labels _ (podLabelsOf labels pod))
  refine ⟨labels, _, hl, hu, ?_, ?_, ?_, ?_, ?_, ?_, ?_, ?_, ?_⟩
  · rw [k1]; rfl
  · rw [k2]; rfl
  · rw [k3]; rfl
  · rw [k4]; rfl
  · rw [k5]; rfl
  · rw [k6]; rfl
  · rw [k7]; rfl
  · rw [k8]; exact (podLabelsOf_mem labels pod).1
  · rw [k8]; exact (podLabelsOf_mem labels pod).2

/-- The loop of `queryUsages` over groups with separate keys appends exactly
the records of the six-label groups, in order. -/
theorem queryUsages_loop_records (w : World) (r : resourceType) (s : K8sClientStore)
    (dp : List TimeSeriesData) (hsep : KeysSeparate dp)
    (hres : ∀ d ∈ dp, d.LabelValues.length = 6 → ResolvesOn w s d)
    (hval : ∀ d ∈ dp, d.LabelValues.length = 6 → CarriesValues d) :
    ∀ (rest : List TimeSeriesData), (∀ d ∈ rest, d ∈ dp) →
      ∀ acc : QueryResult, SameHandles w dp s acc.store →
        ∃ res new, queryUsages.loop w r rest acc = .ok res ∧ res.urs = acc.urs ++ new ∧
          List.Forall₂ recordOfGroup (rest.filter sixLabels) new := by
  intro rest
  induction rest with
  | nil =>
    intro _ acc _
    exact ⟨acc, [], rfl, by simp, by simp⟩
  | cons d tail ih =>
    intro hsub acc hinv
    have hd : d ∈ dp := hsub d (List.mem_cons_self _ _)
    have htail : ∀ e ∈ tail, e ∈ dp := fun e he => hsub e (List.mem_cons_of_mem _ he)
    by_cases h6 : d.LabelValues.length = 6
    · obtain ⟨hne, hworld⟩ := hres d hd h6
      obtain ⟨labels, hl, _⟩ := parseMetricsLabels_of_length_eq d.LabelValues h6
      obtain ⟨k, pod, node, hk, hp, hn⟩ := hworld labels hl
      have hk2 : (acc.store.GetOrCreate w (clusterOf labels)).result = .ok k :=
        (hinv d hd labels hl).trans hk
      obtain ⟨g, ur, hg, hrec, hstore, hof⟩ :=
        queryUsages_body_record w r acc.store d labels k pod node hl hne (hval d hd h6)
          hk2 hp hn
      have hinv2 : SameHandles w dp s g.store := by
        rw [hstore]
        exact SameHandles_step w dp s acc.store hsep hinv d hd labels hl
      obtain ⟨res, new, hloop, hurs, hall⟩ := ih htail
        { urs := acc.urs ++ [ur], store := g.store, calls := acc.calls ++ g.calls } hinv2
      refine ⟨res, ur :: new, ?_, ?_, ?_⟩
      · unfold queryUsages.loop
        simp only [hg, bind, Except.bind, hrec]
        exact hloop
      · rw [hurs]
        simp
      · have hf : (d :: tail).filter sixLabels = d :: tail.filter sixLabels := by
          simp [List.filter, sixLabels, h6]
        rw [hf]
        exact List.Forall₂.cons hof hall
    · have hg := queryUsages_body_malformed w r acc.store d h6
      obtain ⟨res, new, hloop, hurs, hall⟩ := ih htail
        { urs := acc.urs, store := acc.store, calls := acc.calls ++ [] } hinv
      refine ⟨res, new, ?_, hurs, ?_⟩
      · unfold queryUsages.loop
        simp only [hg, bind, Except.bind]
        exact hloop
      · have hf : (d :: tail).filter sixLabels = tail.filter sixLabels := by
          simp [List.filter, sixLabels, h6]
        rw [hf]
        exact hall

/-- C5, as the code has it. For every list of groups returned by the query in
which the six-label groups that name different clusters have different cache
keys and every sample of a six-label group carries a value, if for every group
with exactly six labels resolution succeeds on the client store of the tracker
(`GetOrCreate` for its cluster yields a handle through which its pod and the
node of the pod are found) and the group has at least one sample, then
`queryUsages` returns, without panic, a slice whose records are exactly the
records of the six-label groups, one for each and in the input order; a group
with another number of labels contributes no record and does not stop the
groups after it. -/
theorem queryUsages_one_record_per_group (w : World)
    (backend : List (Except GoError TimeSeriesData)) (s : K8sClientStore) (r : resourceType)
    (dp : List TimeSeriesData) (hq : QueryTimeSeries backend = (dp, none))
    (hres : ∀ d ∈ dp, d.LabelValues.length = 6 → ResolvesOn w s d)
    (hval : ∀ d ∈ dp, d.LabelValues.length = 6 → CarriesValues d)
    (hsep : KeysSeparate dp) :
    ∃ res, queryUsages w backend s r = .ok res ∧
      res.urs.length = (dp.filter sixLabels).length ∧
      List.Forall₂ recordOfGroup (dp.filter sixLabels) res.urs := by
  obtain ⟨res, new, hloop, hurs, hall⟩ :=
    queryUsages_loop_records w r s dp hsep hres hval dp (fun _ h => h)
      { urs := [], store := s, calls := [] } (SameHandles_refl w dp s)
  have hnew : res.urs = new := by simpa using hurs
  refine ⟨res, ?_, ?_, ?_⟩
  · unfold queryUsages
    rw [hq]
    exact hloop
  · rw [hnew]
    exact hall.length_eq.symm
  · rw [hnew]
    exact hall

theorem parseMetricsLabels_groupOf (labels : Labels) :
    parseMetricsLabels (groupOf labels).LabelValues = .ok (.ok labels) := by
  cases labels
  rfl

theorem parseMetricsLabels_malformedSeries (labels : Labels) :
    parseMetricsLabels malformedSeries.LabelValues ≠ .ok (.ok labels) := by
  intro h
  have h5 : parseMetricsLabels malformedSeries.LabelValues
      = .ok (.error (.parseLabelValues 5)) := rfl
  rw [h5] at h
  cases h

theorem labels_of_groupOf (labels l : Labels)
    (h : parseMetricsLabels (groupOf labels).LabelValues = .ok (.ok l)) : l = labels := by
  rw [parseMetricsLabels_groupOf] at h
  cases h
  rfl

theorem ResolvesOn_regional :
    ResolvesOn twoClusterWorld NewK8sClientStore (groupOf regionalLabels) := by
  refine ⟨by simp [groupOf], fun l hl => ?_⟩
  rw [labels_of_groupOf _ _ hl]
  exact ⟨⟨{ clusterOf regionalLabels with Cluster := some ⟨"a-prod", "10.0.0.1", "ca"⟩ }, 1⟩,
    ⟨some ⟨[("app", "web")]⟩, "n1"⟩, _, rfl, rfl, rfl⟩

theorem ResolvesOn_zonal :
    ResolvesOn twoClusterWorld NewK8sClientStore (groupOf zonalLabels) := by
  refine ⟨by simp [groupOf], fun l hl => ?_⟩
  rw [labels_of_groupOf _ _ hl]
  exact ⟨⟨{ clusterOf zonalLabels with Cluster := some ⟨"prod", "10.0.0.2", "ca"⟩ }, 2⟩,
    ⟨some ⟨[("app", "db")]⟩, "n2"⟩, _, rfl, rfl, rfl⟩

theorem ResolvesOn_europe :
    ResolvesOn twoClusterWorld NewK8sClientStore (groupOf europeLabels) := by
  refine ⟨by simp [groupOf], fun l hl => ?_⟩
  rw [labels_of_groupOf _ _ hl]
  exact ⟨⟨{ clusterOf europeLabels with Cluster := some ⟨"prod", "10.0.0.2", "ca"⟩ }, 2⟩,
    ⟨some ⟨[("app", "db")]⟩, "n2"⟩, _, rfl, rfl, rfl⟩

theorem ResolvesOn_valuelessSeries :
    ResolvesOn exampleWorld NewK8sClientStore valuelessSeries := by
  refine ⟨by simp [valuelessSeries], fun l _ => ?_⟩
  exact ⟨_, _, _, rfl, rfl, rfl⟩

theorem CarriesValues_groupOf (labels : Labels) : CarriesValues (groupOf labels) := by
  intro pd hpd
  simp only [groupOf, List.mem_singleton] at hpd
  subst hpd
  simp

/-- The groups of the regional cluster `a-prod` and of the cluster `prod` of
`europe-west1`, with a malformed group between them, have separate keys. -/
theorem KeysSeparate_regional_europe :
    KeysSeparate [groupOf regionalLabels, malformedSeries, groupOf europeLabels] := by
  intro d hd e he ld le hld hle hkey
  simp only [List.mem_cons, List.mem_singleton, List.not_mem_nil, or_false] at hd he
  rcases hd with rfl | rfl | rfl
  · rcases he with rfl | rfl | rfl
    · rw [labels_of_groupOf _ _ hld, labels_of_groupOf _ _ hle]
    · exact absurd hle (parseMetricsLabels_malformedSeries le)
    · rw [labels_of_groupOf _ _ hld, labels_of_groupOf _ _ hle] at hkey
      exact absurd hkey (by decide)
  · exact absurd hld (parseMetricsLabels_malformedSeries ld)
  · rcases he with rfl | rfl | rfl
    · rw [labels_of_groupOf _ _ hld, labels_of_groupOf _ _ hle] at hkey
      exact absurd hkey (by decide)
    · exact absurd hle (parseMetricsLabels_malformedSeries le)
    · rw [labels_of_groupOf _ _ hld, labels_of_groupOf _ _ hle]

/-- The amended C5 in a world of two control planes with different pods: a
group of the regional cluster, a malformed group and a group of the cluster in
`europe-west1` give two records, one for each six-label group. -/
theorem queryUsages_one_record_per_group_witness :
    ∃ res, queryUsages twoClusterWorld
        [.ok (groupOf regionalLabels), .ok malformedSeries, .ok (groupOf europeLabels)]
        NewK8sClientStore 0 = .ok res ∧
      res.urs.length = 2 ∧
      List.Forall₂ recordOfGroup [groupOf regionalLabels, groupOf europeLabels] res.urs :=
  queryUsages_one_record_per_group twoClusterWorld
    [.ok (groupOf regionalLabels), .ok malformedSeries, .ok (groupOf europeLabels)]
    NewK8sClientStore 0
    [groupOf regionalLabels, malformedSeries, groupOf europeLabels] (by rfl)
    (by
      intro d hd h6
      simp only [List.mem_cons, List.mem_singleton, List.not_mem_nil, or_false] at hd
      rcases hd with rfl | rfl | rfl
      · exact ResolvesOn_regional
      · exact absurd h6 (by decide)
      · exact ResolvesOn_europe)
    (by
      intro d hd h6
      simp only [List.mem_cons, List.mem_singleton, List.not_mem_nil, or_false] at hd
      rcases hd with rfl | rfl | rfl
      · exact CarriesValues_groupOf _
      · exact absurd h6 (by decide)
      · exact CarriesValues_groupOf _)
    KeysSeparate_regional_europe

/-- The claim C5 fails. In the world of two control planes the group of pod
`p1` in the regional cluster `a-prod` and the group of pod `p2` in the zonal
cluster `prod` both resolve and have a sample, yet `queryUsages` on the two
returns one record: the clusters share the key `x-us-central1-a-prod`, the
second group gets the handle of the first cluster and its pod is not found
there. And a six-label group that resolves and has one sample, which carries
no value, ends the run with a panic, so the group after it yields no record. -/
theorem queryUsages_one_record_per_group_counterexample :
    ResolvesOn twoClusterWorld NewK8sClientStore (groupOf regionalLabels) ∧
    ResolvesOn twoClusterWorld NewK8sClientStore (groupOf zonalLabels) ∧
    (clusterOf regionalLabels).String = (clusterOf zonalLabels).String ∧
    QueryTimeSeries [.ok (groupOf regionalLabels), .ok (groupOf zonalLabels)] =
      ([groupOf regionalLabels, groupOf zonalLabels], none) ∧
    (queryUsages twoClusterWorld [.ok (groupOf regionalLabels), .ok (groupOf zonalLabels)]
      NewK8sClientStore 0).map
        (fun res => res.urs.map (fun ur => (ur.ClusterName, ur.ClusterLocation))) =
      .ok [("a-prod", "us-central1")] ∧
    ResolvesOn exampleWorld NewK8sClientStore valuelessSeries ∧
    QueryTimeSeries [.ok valuelessSeries, .ok receivedSeries] =
      ([valuelessSeries, returnedSeries], none) ∧
    (queryUsages exampleWorld [.ok valuelessSeries, .ok receivedSeries]
      NewK8sClientStore 0).map (fun res => res.urs) = .error (.indexOutOfRange 0 0) := by
  refine ⟨ResolvesOn_regional, ResolvesOn_zonal, by decide, by rfl, by rfl,
    ResolvesOn_valuelessSeries, by rfl, by rfl⟩

end Consumption
